import Mathlib

/-!
Shallow embedding of the ink! marketplace contract (src/marketplace/lib.rs).

Modelling conventions:
* `AccountId` is modelled as `Nat` (an opaque, equality-comparable identifier).
* `u64` and `u32` values are `Nat`; the source's checked arithmetic
  (`checked_sub`, `checked_add`) is modelled with explicit range checks, and
  the cast `len as u32` is modelled as `% 2^32` (`usize` is 64 bits wide in
  the configuration the repository's own test suite runs under, so the cast
  truncates), while `len as u64` from a 64-bit `usize` is the identity.
* `ink::storage::Mapping` is modelled as an association list whose lookup
  returns the most recently inserted binding for a key.
* Each `&mut self` method becomes a function `Marketplace → args →
  Except ErrorSistema T × Marketplace`, returning the result together with
  the post-state (also on errors, so that partial writes are observable).
-/

abbrev AccountId := Nat

def u32Mod : Nat := 4294967296

def u64Max : Nat := 18446744073709551615

def checked_sub (a b : Nat) : Option Nat :=
  if b ≤ a then some (a - b) else none

def checked_add64 (a b : Nat) : Option Nat :=
  if a + b ≤ u64Max then some (a + b) else none

inductive Rol where
  | Comprador
  | Vendedor
  | Ambos
  deriving DecidableEq, Repr

inductive Categoria where
  | Computacion
  | Ropa
  | Herramientas
  | Muebles
  deriving DecidableEq, Repr

inductive Estado where
  | Pendiente
  | Enviada
  | Recibida
  | Cancelada
  deriving DecidableEq, Repr

inductive ErrorSistema where
  | UsuarioNoRegistrado
  | UsuarioYaRegistrado
  | UsuarioNoEsVendedor
  | UsuarioNoEsComprador
  | VendedorNoExistente
  | VendedorSinPublicaciones
  | PublicacionSinStock
  | PublicacionNoExistente
  | UnderflowPublicaciones
  | UnderflowOrdenes
  | NoEresVendedorDeLaOrden
  | NoEresCompradorDeLaOrden
  | YaEnviada
  | YaRecibido
  | OrdenCancelada
  | OrdenPendiente
  | PeticionNoSolicitada
  | OrdenNoPendiente
  | SinPermisos
  | OverflowPublicaciones
  deriving DecidableEq, Repr

structure Usuario where
  username : String
  rol : Rol
  account_id : AccountId
  deriving DecidableEq, Repr

structure Publicacion where
  id_publicacion : Nat
  nombre : String
  descripcion : String
  precio : Nat
  categoria : Categoria
  stock : Nat
  vendedor_id : AccountId
  deriving DecidableEq, Repr

structure OrdenCompra where
  estado : Estado
  publicacion : Publicacion
  comprador_id : AccountId
  peticion_cancelacion : Bool
  cantidad : Nat
  deriving DecidableEq, Repr

/-- Association-list model of `ink::storage::Mapping`. -/
abbrev Mapping (α : Type) : Type := List (AccountId × α)

def Mapping.get {α : Type} (m : Mapping α) (k : AccountId) : Option α :=
  match m with
  | [] => none
  | (k2, v) :: rest => if k = k2 then some v else Mapping.get rest k

def Mapping.insert {α : Type} (m : Mapping α) (k : AccountId) (v : α) : Mapping α :=
  (k, v) :: m

deriving instance DecidableEq for Except

structure Marketplace where
  usuarios : Mapping Usuario
  publicaciones : List Publicacion
  ordenes_compra : List OrdenCompra
  publicaciones_mapping : Mapping (List Nat)
  ordenes_compra_mapping : Mapping (List Nat)
  deriving DecidableEq, Repr

def Marketplace.new : Marketplace :=
  { usuarios := [], publicaciones := [], ordenes_compra := [],
    publicaciones_mapping := [], ordenes_compra_mapping := [] }

/-- Embeds `Usuario::es_vendedor`: fails for role `Comprador`. -/
def Usuario.es_vendedor (u : Usuario) : Except ErrorSistema Bool :=
  match u.rol with
  | Rol.Comprador => Except.error ErrorSistema.UsuarioNoEsVendedor
  | _ => Except.ok true

/-- Embeds `Usuario::es_comprador`: fails for role `Vendedor`. -/
def Usuario.es_comprador (u : Usuario) : Except ErrorSistema Bool :=
  match u.rol with
  | Rol.Vendedor => Except.error ErrorSistema.UsuarioNoEsComprador
  | _ => Except.ok true

/-- Embeds `Marketplace::_registrar_usuario`. -/
def _registrar_usuario (m : Marketplace) (caller : AccountId) (username : String)
    (rol : Rol) : Except ErrorSistema Usuario × Marketplace :=
  match Mapping.get m.usuarios caller with
  | some _ => (Except.error ErrorSistema.UsuarioYaRegistrado, m)
  | none =>
    let usuario : Usuario := { username := username, rol := rol, account_id := caller }
    (Except.ok usuario, { m with usuarios := Mapping.insert m.usuarios caller usuario })

/-- Embeds `Marketplace::_get_usuario`. -/
def _get_usuario (m : Marketplace) (caller : AccountId) : Except ErrorSistema Usuario :=
  match Mapping.get m.usuarios caller with
  | some u => Except.ok u
  | none => Except.error ErrorSistema.UsuarioNoRegistrado

/-- Embeds `Marketplace::_cambiar_rol` (the caller resolved by the public wrapper). -/
def _cambiar_rol (m : Marketplace) (caller : AccountId) (nuevo_rol : Rol) :
    Except ErrorSistema Usuario × Marketplace :=
  match _get_usuario m caller with
  | Except.error e => (Except.error e, m)
  | Except.ok usuario =>
    let usuario2 := { usuario with rol := nuevo_rol }
    (Except.ok usuario2,
     { m with usuarios := Mapping.insert m.usuarios usuario.account_id usuario2 })

/-- Embeds `Marketplace::_publicar`.  Note the source pushes the publication
before computing the seller-index entry `(len as u32).checked_sub(1)`. -/
def _publicar (m : Marketplace) (caller : AccountId) (nombre descripcion : String)
    (precio : Nat) (categoria : Categoria) (stock : Nat) :
    Except ErrorSistema Publicacion × Marketplace :=
  match _get_usuario m caller with
  | Except.error e => (Except.error e, m)
  | Except.ok usuario =>
    match Usuario.es_vendedor usuario with
    | Except.error e => (Except.error e, m)
    | Except.ok _ =>
      let publicacion : Publicacion :=
        { id_publicacion := m.publicaciones.length, nombre := nombre,
          descripcion := descripcion, precio := precio, categoria := categoria,
          stock := stock, vendedor_id := usuario.account_id }
      let m1 := { m with publicaciones := m.publicaciones ++ [publicacion] }
      let publicaciones_vendedor :=
        (Mapping.get m1.publicaciones_mapping usuario.account_id).getD []
      match checked_sub (m1.publicaciones.length % u32Mod) 1 with
      | none => (Except.error ErrorSistema.UnderflowPublicaciones, m1)
      | some index_pub =>
        let pm := Mapping.insert m1.publicaciones_mapping usuario.account_id
          (publicaciones_vendedor ++ [index_pub])
        (Except.ok publicacion, { m1 with publicaciones_mapping := pm })

/-- Embeds `Marketplace::_ordenar_compra`.  The stock decrement and the order
push happen before computing the buyer-index entry `(len as u32).checked_sub(1)`. -/
def _ordenar_compra (m : Marketplace) (caller : AccountId)
    (idx_publicacion cantidad : Nat) : Except ErrorSistema OrdenCompra × Marketplace :=
  match _get_usuario m caller with
  | Except.error e => (Except.error e, m)
  | Except.ok usuario =>
    match Usuario.es_comprador usuario with
    | Except.error e => (Except.error e, m)
    | Except.ok _ =>
      match m.publicaciones.get? idx_publicacion with
      | none => (Except.error ErrorSistema.PublicacionNoExistente, m)
      | some publicacion0 =>
        match checked_sub publicacion0.stock cantidad with
        | none => (Except.error ErrorSistema.PublicacionSinStock, m)
        | some nuevo_stock =>
          let publicacion := { publicacion0 with stock := nuevo_stock }
          let m1 := { m with publicaciones := m.publicaciones.set idx_publicacion publicacion }
          let orden_compra : OrdenCompra :=
            { estado := Estado.Pendiente, publicacion := publicacion,
              comprador_id := usuario.account_id, peticion_cancelacion := false,
              cantidad := cantidad }
          let m2 := { m1 with ordenes_compra := m1.ordenes_compra ++ [orden_compra] }
          let ordenes_compra_comprador :=
            (Mapping.get m2.ordenes_compra_mapping usuario.account_id).getD []
          match checked_sub (m2.ordenes_compra.length % u32Mod) 1 with
          | none => (Except.error ErrorSistema.UnderflowOrdenes, m2)
          | some index_ord =>
            let om := Mapping.insert m2.ordenes_compra_mapping usuario.account_id
              (ordenes_compra_comprador ++ [index_ord])
            (Except.ok orden_compra, { m2 with ordenes_compra_mapping := om })

/-- Embeds `Marketplace::_marcar_enviado`. -/
def _marcar_enviado (m : Marketplace) (caller : AccountId) (idx_orden : Nat) :
    Except ErrorSistema OrdenCompra × Marketplace :=
  match _get_usuario m caller with
  | Except.error e => (Except.error e, m)
  | Except.ok usuario =>
    match Usuario.es_vendedor usuario with
    | Except.error e => (Except.error e, m)
    | Except.ok _ =>
      match m.ordenes_compra.get? idx_orden with
      | none => (Except.error ErrorSistema.PublicacionNoExistente, m)
      | some orden =>
        match orden.estado with
        | Estado.Pendiente =>
          if orden.publicacion.vendedor_id ≠ usuario.account_id then
            (Except.error ErrorSistema.NoEresVendedorDeLaOrden, m)
          else
            let orden2 := { orden with estado := Estado.Enviada }
            (Except.ok orden2, { m with ordenes_compra := m.ordenes_compra.set idx_orden orden2 })
        | Estado.Enviada => (Except.error ErrorSistema.YaEnviada, m)
        | Estado.Recibida => (Except.error ErrorSistema.YaRecibido, m)
        | Estado.Cancelada => (Except.error ErrorSistema.OrdenCancelada, m)

/-- Embeds `Marketplace::_marcar_recibido`. -/
def _marcar_recibido (m : Marketplace) (caller : AccountId) (idx_orden : Nat) :
    Except ErrorSistema OrdenCompra × Marketplace :=
  match _get_usuario m caller with
  | Except.error e => (Except.error e, m)
  | Except.ok usuario =>
    match Usuario.es_comprador usuario with
    | Except.error e => (Except.error e, m)
    | Except.ok _ =>
      match m.ordenes_compra.get? idx_orden with
      | none => (Except.error ErrorSistema.PublicacionNoExistente, m)
      | some orden =>
        match orden.estado with
        | Estado.Enviada =>
          if orden.comprador_id ≠ usuario.account_id then
            (Except.error ErrorSistema.NoEresCompradorDeLaOrden, m)
          else
            let orden2 := { orden with estado := Estado.Recibida }
            (Except.ok orden2, { m with ordenes_compra := m.ordenes_compra.set idx_orden orden2 })
        | Estado.Pendiente => (Except.error ErrorSistema.OrdenPendiente, m)
        | Estado.Recibida => (Except.error ErrorSistema.YaRecibido, m)
        | Estado.Cancelada => (Except.error ErrorSistema.OrdenCancelada, m)

/-- Embeds `Marketplace::_cancelar_orden`. -/
def _cancelar_orden (m : Marketplace) (caller : AccountId) (idx_orden : Nat) :
    Except ErrorSistema OrdenCompra × Marketplace :=
  match _get_usuario m caller with
  | Except.error e => (Except.error e, m)
  | Except.ok _ =>
    match m.ordenes_compra.get? idx_orden with
    | none => (Except.error ErrorSistema.PublicacionNoExistente, m)
    | some orden =>
      if orden.estado ≠ Estado.Pendiente then
        (Except.error ErrorSistema.OrdenNoPendiente, m)
      else if caller = orden.comprador_id then
        let orden2 := { orden with peticion_cancelacion := true }
        (Except.ok orden2, { m with ordenes_compra := m.ordenes_compra.set idx_orden orden2 })
      else if caller = orden.publicacion.vendedor_id then
        if orden.peticion_cancelacion = false then
          (Except.error ErrorSistema.PeticionNoSolicitada, m)
        else
          match m.publicaciones.get? orden.publicacion.id_publicacion with
          | none => (Except.error ErrorSistema.PublicacionNoExistente, m)
          | some publicacion =>
            match checked_add64 publicacion.stock orden.cantidad with
            | none => (Except.error ErrorSistema.OverflowPublicaciones, m)
            | some nuevo_stock =>
              let publicacion2 := { publicacion with stock := nuevo_stock }
              let orden2 := { orden with estado := Estado.Cancelada }
              let pubs2 := m.publicaciones.set orden.publicacion.id_publicacion publicacion2
              let ords2 := m.ordenes_compra.set idx_orden orden2
              (Except.ok orden2, { m with publicaciones := pubs2, ordenes_compra := ords2 })
      else
        (Except.error ErrorSistema.SinPermisos, m)

/-- One public mutating operation together with its (boundary-resolved) caller.
The read-only messages (`get_usuario`, `get_publicaciones`, `get_ordenes`, …)
take `&self` in the source and cannot mutate the state, so they are omitted
from the step alphabet. -/
inductive Op where
  | registrar (caller : AccountId) (username : String) (rol : Rol)
  | cambiar_rol (caller : AccountId) (nuevo_rol : Rol)
  | publicar (caller : AccountId) (nombre descripcion : String) (precio : Nat)
      (categoria : Categoria) (stock : Nat)
  | ordenar_compra (caller : AccountId) (idx_publicacion cantidad : Nat)
  | marcar_enviado (caller : AccountId) (idx_orden : Nat)
  | marcar_recibido (caller : AccountId) (idx_orden : Nat)
  | cancelar_orden (caller : AccountId) (idx_orden : Nat)
  deriving DecidableEq, Repr

def Op.caller : Op → AccountId
  | Op.registrar c _ _ => c
  | Op.cambiar_rol c _ => c
  | Op.publicar c _ _ _ _ _ => c
  | Op.ordenar_compra c _ _ => c
  | Op.marcar_enviado c _ => c
  | Op.marcar_recibido c _ => c
  | Op.cancelar_orden c _ => c

/-- State transition of one public mutating operation (result value discarded). -/
def step (m : Marketplace) (op : Op) : Marketplace :=
  match op with
  | Op.registrar c u r => (_registrar_usuario m c u r).2
  | Op.cambiar_rol c r => (_cambiar_rol m c r).2
  | Op.publicar c n d p cat s => (_publicar m c n d p cat s).2
  | Op.ordenar_compra c i q => (_ordenar_compra m c i q).2
  | Op.marcar_enviado c i => (_marcar_enviado m c i).2
  | Op.marcar_recibido c i => (_marcar_recibido m c i).2
  | Op.cancelar_orden c i => (_cancelar_orden m c i).2

def runFrom (m : Marketplace) (ops : List Op) : Marketplace :=
  ops.foldl step m

def run (ops : List Op) : Marketplace :=
  runFrom Marketplace.new ops

/-- The `stock` argument carried by a `publicar` operation (0 otherwise). -/
def Op.stockArg : Op → Nat
  | Op.publicar _ _ _ _ _ s => s
  | _ => 0

/-- Ghost step: alongside the state it records, for each publication ever
appended to the catalog, the initial stock it was created with. -/
def gstep (p : Marketplace × List Nat) (op : Op) : Marketplace × List Nat :=
  let m2 := step p.1 op
  (m2, p.2 ++ List.replicate (m2.publicaciones.length - p.1.publicaciones.length) (Op.stockArg op))

def runG (ops : List Op) : Marketplace × List Nat :=
  ops.foldl gstep (Marketplace.new, [])

/-- Contribution of one order to the outstanding (not `Cancelada`) quantity
held against publication `i`: orders are attributed to a publication via the
snapshot's `id_publicacion`. -/
def contrib (i : Nat) (o : OrdenCompra) : Nat :=
  if o.publicacion.id_publicacion = i ∧ o.estado ≠ Estado.Cancelada then o.cantidad else 0

/-- Total quantity of all non-cancelled orders placed against publication `i`. -/
def outstanding (ordenes : List OrdenCompra) (i : Nat) : Nat :=
  (ordenes.map (contrib i)).sum

/-- Total quantity of all orders against publication `i` that reached `Cancelada`. -/
def cancelledQty (ordenes : List OrdenCompra) (i : Nat) : Nat :=
  (ordenes.map (fun o =>
    if o.publicacion.id_publicacion = i ∧ o.estado = Estado.Cancelada then o.cantidad else 0)).sum

/-- Stock-accounting invariant tying a catalog, an order ledger and the ghost
list of initial stocks: ids are positional, order snapshots point into the
catalog, and each publication's stock plus the quantities of its non-cancelled
orders equals its initial stock. -/
def StockInv (pubs : List Publicacion) (ords : List OrdenCompra) (inits : List Nat) : Prop :=
  inits.length = pubs.length ∧
  (∀ j p, pubs.get? j = some p → p.id_publicacion = j) ∧
  (∀ o ∈ ords, o.publicacion.id_publicacion < pubs.length) ∧
  (∀ j p s, pubs.get? j = some p → inits.get? j = some s →
    p.stock + outstanding ords j = s)

/-- Index integrity: every position stored in a buyer's order index points to an
existing order of that buyer, and every position stored in a seller's
publication index points to an existing publication of that seller. -/
def IdxInv (m : Marketplace) : Prop :=
  (∀ b l, Mapping.get m.ordenes_compra_mapping b = some l →
    ∀ i ∈ l, ∃ o, m.ordenes_compra.get? i = some o ∧ o.comprador_id = b) ∧
  (∀ v l, Mapping.get m.publicaciones_mapping v = some l →
    ∀ i ∈ l, ∃ p, m.publicaciones.get? i = some p ∧ p.vendedor_id = v)

/-- A fixed dummy publication, used to build large catalog states. -/
def PUBX : Publicacion :=
  { id_publicacion := 0, nombre := "", descripcion := "", precio := 0,
    categoria := Categoria.Computacion, stock := 0, vendedor_id := 1 }

/-- A state holding one registered seller (account 1) and 2^32 − 1
publications: one more publication makes the catalog length overflow the
`as u32` cast in the seller-index computation. -/
def MBIG : Marketplace :=
  { usuarios := [(1, { username := "s", rol := Rol.Vendedor, account_id := 1 })],
    publicaciones := List.replicate (u32Mod - 1) PUBX,
    ordenes_compra := [], publicaciones_mapping := [], ordenes_compra_mapping := [] }

/-- The single publication of the C10 trace after `k` unit orders by buyer 3:
it is published with stock `u32Mod + 2` and buyer 2 takes one unit first. -/
def c10_pub (k : Nat) : Publicacion :=
  { id_publicacion := 0, nombre := "w", descripcion := "d", precio := 0,
    categoria := Categoria.Computacion, stock := u32Mod + 1 - k, vendedor_id := 1 }

/-- Buyer 2's order (ledger position 0) in the C10 trace. -/
def c10_ordB1 : OrdenCompra :=
  { estado := Estado.Pendiente, publicacion := c10_pub 0, comprador_id := 2,
    peticion_cancelacion := false, cantidad := 1 }

/-- Loop invariant of the C10 trace after `k` unit orders by buyer 3 (while
`k + 1 < u32Mod`, every one of buyer 3's index entries is `1, …, k`). -/
def c10_Q (k : Nat) (m : Marketplace) : Prop :=
  Mapping.get m.usuarios 3 = some { username := "b", rol := Rol.Comprador, account_id := 3 } ∧
  m.publicaciones = [c10_pub k] ∧
  m.ordenes_compra.length = k + 1 ∧
  m.ordenes_compra.get? 0 = some c10_ordB1 ∧
  (Mapping.get m.ordenes_compra_mapping 3).getD [] = List.range' 1 k

/-- Prefix of the C10 trace: three registrations, one publication with stock
`u32Mod + 2`, and buyer 2's unit order. -/
def c10_pre : List Op :=
  [Op.registrar 1 "s" Rol.Vendedor, Op.registrar 2 "a" Rol.Comprador,
   Op.registrar 3 "b" Rol.Comprador,
   Op.publicar 1 "w" "d" 0 Categoria.Computacion (u32Mod + 2),
   Op.ordenar_compra 2 0 1]

/-- The full C10 trace: the prefix followed by `u32Mod` unit orders by buyer 3. -/
def c10_ops : List Op :=
  c10_pre ++ List.replicate u32Mod (Op.ordenar_compra 3 0 1)

/-! Helper lemmas about the mapping and about quantity sums. -/

theorem Mapping.get_insert_self {α : Type} (m : Mapping α) (k : AccountId) (v : α) :
    Mapping.get (Mapping.insert m k v) k = some v := by
  simp [Mapping.get, Mapping.insert]

theorem Mapping.get_insert_ne {α : Type} (m : Mapping α) (k k2 : AccountId) (v : α)
    (h : k2 ≠ k) : Mapping.get (Mapping.insert m k v) k2 = Mapping.get m k2 := by
  simp [Mapping.get, Mapping.insert, h]

theorem sum_map_set {α : Type} (f : α → Nat) (l : List α) (k : Nat) (x y : α)
    (h : l.get? k = some y) :
    ((l.set k x).map f).sum + f y = (l.map f).sum + f x := by
  induction l generalizing k with
  | nil => simp at h
  | cons a t ih =>
    cases k with
    | zero =>
      simp only [List.get?] at h
      cases h
      simp only [List.set_cons_zero, List.map_cons, List.sum_cons]
      omega
    | succ k2 =>
      simp only [List.get?] at h
      have ih2 := ih k2 h
      simp only [List.set_cons_succ, List.map_cons, List.sum_cons]
      omega

theorem outstanding_append (ordenes : List OrdenCompra) (o : OrdenCompra) (i : Nat) :
    outstanding (ordenes ++ [o]) i = outstanding ordenes i + contrib i o := by
  simp [outstanding]

theorem outstanding_set (ordenes : List OrdenCompra) (k : Nat) (o2 o : OrdenCompra)
    (h : ordenes.get? k = some o) :
    outstanding (ordenes.set k o2) i + contrib i o = outstanding ordenes i + contrib i o2 :=
  sum_map_set (contrib i) ordenes k o2 o h

theorem outstanding_zero (ordenes : List OrdenCompra) (i : Nat)
    (h : ∀ o ∈ ordenes, o.publicacion.id_publicacion ≠ i) :
    outstanding ordenes i = 0 := by
  unfold outstanding
  apply List.sum_eq_zero
  intro x hx
  obtain ⟨o, ho, rfl⟩ := List.mem_map.mp hx
  simp [contrib, h o ho]

theorem contrib_estado_eq (i : Nat) (o o2 : OrdenCompra)
    (hpub : o2.publicacion = o.publicacion) (hcant : o2.cantidad = o.cantidad)
    (he : (o2.estado = Estado.Cancelada) = (o.estado = Estado.Cancelada)) :
    contrib i o2 = contrib i o := by
  simp [contrib, hpub, hcant, he]

/-! Shape lemmas: how each mutating operation can change the state. -/

theorem shape_registrar (m : Marketplace) (c : AccountId) (un : String) (r : Rol) :
    (_registrar_usuario m c un r).2 = m ∨
    (∃ u : Usuario, (_registrar_usuario m c un r).2 =
      { m with usuarios := Mapping.insert m.usuarios c u }) := by
  unfold _registrar_usuario
  cases h : Mapping.get m.usuarios c with
  | some u => left; simp [h]
  | none =>
    right
    refine ⟨{ username := un, rol := r, account_id := c }, ?_⟩
    simp [h]

theorem shape_cambiar_rol (m : Marketplace) (c : AccountId) (r : Rol) :
    (_cambiar_rol m c r).2 = m ∨
    (∃ (k : AccountId) (u : Usuario), (_cambiar_rol m c r).2 =
      { m with usuarios := Mapping.insert m.usuarios k u }) := by
  unfold _cambiar_rol
  cases h : _get_usuario m c with
  | error e => left; simp [h]
  | ok u =>
    right
    refine ⟨u.account_id, { u with rol := r }, ?_⟩
    simp [h]

theorem es_vendedor_ok (u : Usuario) (b : Bool) (h : Usuario.es_vendedor u = Except.ok b) :
    b = true := by
  unfold Usuario.es_vendedor at h
  cases hr : u.rol <;> rw [hr] at h <;> simp_all

theorem es_comprador_ok (u : Usuario) (b : Bool) (h : Usuario.es_comprador u = Except.ok b) :
    b = true := by
  unfold Usuario.es_comprador at h
  cases hr : u.rol <;> rw [hr] at h <;> simp_all

theorem shape_publicar (m : Marketplace) (c : AccountId) (n d : String) (pr : Nat)
    (cat : Categoria) (st : Nat) :
    (_publicar m c n d pr cat st).2 = m ∨
    (∃ (u : Usuario) (pub : Publicacion) (pm : Mapping (List Nat)),
      _get_usuario m c = Except.ok u ∧
      pub = { id_publicacion := m.publicaciones.length, nombre := n, descripcion := d,
              precio := pr, categoria := cat, stock := st, vendedor_id := u.account_id } ∧
      (_publicar m c n d pr cat st).2 =
        { m with publicaciones := m.publicaciones ++ [pub], publicaciones_mapping := pm } ∧
      (((m.publicaciones.length + 1) % u32Mod = 0 ∧ pm = m.publicaciones_mapping) ∨
       ((m.publicaciones.length + 1) % u32Mod ≠ 0 ∧
        pm = Mapping.insert m.publicaciones_mapping u.account_id
          ((Mapping.get m.publicaciones_mapping u.account_id).getD [] ++
            [(m.publicaciones.length + 1) % u32Mod - 1])))) := by
  unfold _publicar
  cases hu : _get_usuario m c with
  | error e => left; simp [hu]
  | ok u =>
    cases hv : Usuario.es_vendedor u with
    | error e => left; simp [hu, hv]
    | ok b =>
      right
      by_cases h0 : (m.publicaciones.length + 1) % u32Mod = 0
      · refine ⟨u, _, m.publicaciones_mapping, rfl, rfl, ?_, Or.inl ⟨h0, rfl⟩⟩
        simp [hu, hv, checked_sub, List.length_append, h0]
      · refine ⟨u, _, _, rfl, rfl, ?_, Or.inr ⟨h0, rfl⟩⟩
        have h1 : 1 ≤ (m.publicaciones.length + 1) % u32Mod := Nat.one_le_iff_ne_zero.mpr h0
        simp [hu, hv, checked_sub, List.length_append, h1]

theorem shape_ordenar (m : Marketplace) (c : AccountId) (idx q : Nat) :
    (_ordenar_compra m c idx q).2 = m ∨
    (∃ (u : Usuario) (p0 : Publicacion) (om : Mapping (List Nat)),
      _get_usuario m c = Except.ok u ∧
      m.publicaciones.get? idx = some p0 ∧
      q ≤ p0.stock ∧
      (_ordenar_compra m c idx q).2 =
        { m with
            publicaciones := m.publicaciones.set idx { p0 with stock := p0.stock - q },
            ordenes_compra := m.ordenes_compra ++
              [{ estado := Estado.Pendiente, publicacion := { p0 with stock := p0.stock - q },
                 comprador_id := u.account_id, peticion_cancelacion := false, cantidad := q }],
            ordenes_compra_mapping := om } ∧
      (((m.ordenes_compra.length + 1) % u32Mod = 0 ∧ om = m.ordenes_compra_mapping) ∨
       ((m.ordenes_compra.length + 1) % u32Mod ≠ 0 ∧
        om = Mapping.insert m.ordenes_compra_mapping u.account_id
          ((Mapping.get m.ordenes_compra_mapping u.account_id).getD [] ++
            [(m.ordenes_compra.length + 1) % u32Mod - 1])))) := by
  unfold _ordenar_compra
  cases hu : _get_usuario m c with
  | error e => left; simp [hu]
  | ok u =>
    cases hv : Usuario.es_comprador u with
    | error e => left; simp [hu, hv]
    | ok b =>
      cases hp : m.publicaciones.get? idx with
      | none => left; simp [hu, hv, hp]
      | some p0 =>
        by_cases hq : q ≤ p0.stock
        · right
          by_cases h0 : (m.ordenes_compra.length + 1) % u32Mod = 0
          · refine ⟨u, p0, m.ordenes_compra_mapping, rfl, rfl, hq, ?_, Or.inl ⟨h0, rfl⟩⟩
            simp [hu, hv, hp, checked_sub, hq, List.length_append, h0]
          · have h1 : 1 ≤ (m.ordenes_compra.length + 1) % u32Mod := Nat.one_le_iff_ne_zero.mpr h0
            refine ⟨u, p0, _, rfl, rfl, hq, ?_, Or.inr ⟨h0, rfl⟩⟩
            simp [hu, hv, hp, checked_sub, hq, List.length_append, h1]
        · left
          simp [hu, hv, hp, checked_sub, hq]

theorem shape_enviado (m : Marketplace) (c : AccountId) (k : Nat) :
    (_marcar_enviado m c k).2 = m ∨
    (∃ o : OrdenCompra,
      m.ordenes_compra.get? k = some o ∧ o.estado = Estado.Pendiente ∧
      (_marcar_enviado m c k).2 =
        { m with ordenes_compra := m.ordenes_compra.set k { o with estado := Estado.Enviada } }) := by
  unfold _marcar_enviado
  cases hu : _get_usuario m c with
  | error e => left; simp [hu]
  | ok u =>
    cases hv : Usuario.es_vendedor u with
    | error e => left; simp [hu, hv]
    | ok b =>
      cases ho : m.ordenes_compra.get? k with
      | none => left; simp [hu, hv, ho]
      | some o =>
        cases he : o.estado with
        | Pendiente =>
          by_cases hw : o.publicacion.vendedor_id ≠ u.account_id
          · left; simp [hu, hv, ho, he, hw]
          · right
            refine ⟨o, rfl, he, ?_⟩
            simp [hu, hv, ho, he, hw]
        | Enviada => left; simp [hu, hv, ho, he]
        | Recibida => left; simp [hu, hv, ho, he]
        | Cancelada => left; simp [hu, hv, ho, he]

theorem shape_recibido (m : Marketplace) (c : AccountId) (k : Nat) :
    (_marcar_recibido m c k).2 = m ∨
    (∃ o : OrdenCompra,
      m.ordenes_compra.get? k = some o ∧ o.estado = Estado.Enviada ∧
      (_marcar_recibido m c k).2 =
        { m with ordenes_compra := m.ordenes_compra.set k { o with estado := Estado.Recibida } }) := by
  unfold _marcar_recibido
  cases hu : _get_usuario m c with
  | error e => left; simp [hu]
  | ok u =>
    cases hv : Usuario.es_comprador u with
    | error e => left; simp [hu, hv]
    | ok b =>
      cases ho : m.ordenes_compra.get? k with
      | none => left; simp [hu, hv, ho]
      | some o =>
        cases he : o.estado with
        | Enviada =>
          by_cases hw : o.comprador_id ≠ u.account_id
          · left; simp [hu, hv, ho, he, hw]
          · right
            refine ⟨o, rfl, he, ?_⟩
            simp [hu, hv, ho, he, hw]
        | Pendiente => left; simp [hu, hv, ho, he]
        | Recibida => left; simp [hu, hv, ho, he]
        | Cancelada => left; simp [hu, hv, ho, he]

theorem shape_cancelar (m : Marketplace) (c : AccountId) (k : Nat) :
    (_cancelar_orden m c k).2 = m ∨
    (∃ o : OrdenCompra,
      m.ordenes_compra.get? k = some o ∧ o.estado = Estado.Pendiente ∧ c = o.comprador_id ∧
      (_cancelar_orden m c k).2 =
        { m with ordenes_compra := m.ordenes_compra.set k { o with peticion_cancelacion := true } }) ∨
    (∃ (o : OrdenCompra) (p : Publicacion),
      m.ordenes_compra.get? k = some o ∧ o.estado = Estado.Pendiente ∧
      c ≠ o.comprador_id ∧ c = o.publicacion.vendedor_id ∧ o.peticion_cancelacion = true ∧
      m.publicaciones.get? o.publicacion.id_publicacion = some p ∧
      p.stock + o.cantidad ≤ u64Max ∧
      (_cancelar_orden m c k).2 =
        { m with
            publicaciones := m.publicaciones.set o.publicacion.id_publicacion
              { p with stock := p.stock + o.cantidad },
            ordenes_compra := m.ordenes_compra.set k { o with estado := Estado.Cancelada } }) := by
  unfold _cancelar_orden
  cases hu : _get_usuario m c with
  | error e => left; simp [hu]
  | ok u =>
    cases ho : m.ordenes_compra.get? k with
    | none => left; simp [hu, ho]
    | some o =>
      by_cases he : o.estado ≠ Estado.Pendiente
      · left; simp [hu, ho, he]
      · rw [not_not] at he
        by_cases hb : c = o.comprador_id
        · right; left
          refine ⟨o, rfl, he, hb, ?_⟩
          simp [hu, ho, he, hb]
        · by_cases hs : c = o.publicacion.vendedor_id
          · subst hs
            by_cases hpet : o.peticion_cancelacion = false
            · left; simp [hu, ho, he, hb, hpet]
            · have hpet2 : o.peticion_cancelacion = true := by
                cases hx : o.peticion_cancelacion
                · exact absurd hx hpet
                · rfl
              cases hp : m.publicaciones.get? o.publicacion.id_publicacion with
              | none =>
                left
                rw [List.get?_eq_getElem?] at hp
                simp [hu, ho, he, hb, hpet2, hp]
              | some p =>
                by_cases hov : p.stock + o.cantidad ≤ u64Max
                · right; right
                  refine ⟨o, p, rfl, he, hb, rfl, hpet2, hp, hov, ?_⟩
                  rw [List.get?_eq_getElem?] at hp
                  simp [hu, ho, he, hb, hpet2, hp, checked_add64, hov]
                · left
                  rw [List.get?_eq_getElem?] at hp
                  simp [hu, ho, he, hb, hpet2, hp, checked_add64, hov]
          · left; simp [hu, ho, he, hb, hs]

/-! Stock-accounting invariant: a publication's live stock plus the total
quantity of its non-cancelled orders equals the stock it was created with. -/

theorem stockInv_pub_append (pubs : List Publicacion) (ords : List OrdenCompra)
    (inits : List Nat) (pub : Publicacion) (h : StockInv pubs ords inits)
    (hid : pub.id_publicacion = pubs.length) :
    StockInv (pubs ++ [pub]) ords (inits ++ [pub.stock]) := by
  obtain ⟨hlen, hids, hdom, hsum⟩ := h
  refine ⟨by simp [hlen], ?_, ?_, ?_⟩
  · intro j p hp
    rcases Nat.lt_trichotomy j pubs.length with hj | hj | hj
    · rw [List.get?_append hj] at hp
      exact hids j p hp
    · subst hj
      rw [List.get?_concat_length] at hp
      cases hp
      exact hid
    · rw [List.get?_eq_none.mpr (by simp; omega)] at hp
      cases hp
  · intro o ho
    have := hdom o ho
    simp
    omega
  · intro j p s hp hs
    rcases Nat.lt_trichotomy j pubs.length with hj | hj | hj
    · rw [List.get?_append hj] at hp
      rw [List.get?_append (by omega)] at hs
      exact hsum j p s hp hs
    · subst hj
      rw [List.get?_concat_length] at hp
      rw [← hlen, List.get?_concat_length] at hs
      cases hp
      cases hs
      have hz : outstanding ords pubs.length = 0 := by
        apply outstanding_zero
        intro o ho
        have := hdom o ho
        omega
      omega
    · rw [List.get?_eq_none.mpr (by simp; omega)] at hp
      cases hp

theorem stockInv_ordenar (pubs : List Publicacion) (ords : List OrdenCompra)
    (inits : List Nat) (idx q cid : Nat) (p0 : Publicacion)
    (h : StockInv pubs ords inits) (hp0 : pubs.get? idx = some p0) (hq : q ≤ p0.stock) :
    StockInv (pubs.set idx { p0 with stock := p0.stock - q })
      (ords ++ [{ estado := Estado.Pendiente, publicacion := { p0 with stock := p0.stock - q },
                  comprador_id := cid, peticion_cancelacion := false, cantidad := q }])
      inits := by
  obtain ⟨hlen, hids, hdom, hsum⟩ := h
  have hidx : idx < pubs.length := (List.get?_eq_some.mp hp0).1
  have hid0 : p0.id_publicacion = idx := hids idx p0 hp0
  refine ⟨by simp [hlen], ?_, ?_, ?_⟩
  · intro j p hp
    by_cases hj : idx = j
    · subst hj
      rw [List.get?_set_eq_of_lt _ hidx] at hp
      cases hp
      exact hid0
    · rw [List.get?_set_ne _ _ hj] at hp
      exact hids j p hp
  · intro o ho
    rcases List.mem_append.mp ho with ho | ho
    · have := hdom o ho
      simp
      omega
    · simp at ho
      subst ho
      simp [hid0]
      omega
  · intro j p s hp hs
    rw [outstanding_append]
    by_cases hj : idx = j
    · subst hj
      rw [List.get?_set_eq_of_lt _ hidx] at hp
      cases hp
      have hold := hsum idx p0 s hp0 hs
      simp [contrib, hid0]
      omega
    · rw [List.get?_set_ne _ _ hj] at hp
      have hold := hsum j p s hp hs
      simp [contrib, hid0, hj]
      omega

theorem stockInv_estado_set (pubs : List Publicacion) (ords : List OrdenCompra)
    (inits : List Nat) (k : Nat) (o o2 : OrdenCompra) (h : StockInv pubs ords inits)
    (ho : ords.get? k = some o) (hpub : o2.publicacion = o.publicacion)
    (hcant : o2.cantidad = o.cantidad)
    (he : (o2.estado = Estado.Cancelada) = (o.estado = Estado.Cancelada)) :
    StockInv pubs (ords.set k o2) inits := by
  obtain ⟨hlen, hids, hdom, hsum⟩ := h
  refine ⟨hlen, hids, ?_, ?_⟩
  · intro x hx
    rcases List.mem_or_eq_of_mem_set hx with hx | hx
    · exact hdom x hx
    · subst hx
      rw [hpub]
      exact hdom o (List.get?_mem ho)
  · intro j p s hp hs
    have hset := outstanding_set ords k o2 o ho (i := j)
    have hco : contrib j o2 = contrib j o := contrib_estado_eq j o o2 hpub hcant he
    have := hsum j p s hp hs
    omega

theorem stockInv_cancel (pubs : List Publicacion) (ords : List OrdenCompra)
    (inits : List Nat) (k : Nat) (o : OrdenCompra) (p : Publicacion)
    (h : StockInv pubs ords inits) (ho : ords.get? k = some o)
    (he : o.estado = Estado.Pendiente)
    (hp : pubs.get? o.publicacion.id_publicacion = some p) :
    StockInv (pubs.set o.publicacion.id_publicacion { p with stock := p.stock + o.cantidad })
      (ords.set k { o with estado := Estado.Cancelada }) inits := by
  obtain ⟨hlen, hids, hdom, hsum⟩ := h
  have hpidx : o.publicacion.id_publicacion < pubs.length := (List.get?_eq_some.mp hp).1
  have hpid : p.id_publicacion = o.publicacion.id_publicacion :=
    hids o.publicacion.id_publicacion p hp
  refine ⟨by simp [hlen], ?_, ?_, ?_⟩
  · intro j p2 hp2
    by_cases hj : o.publicacion.id_publicacion = j
    · subst hj
      rw [List.get?_set_eq_of_lt _ hpidx] at hp2
      cases hp2
      exact hpid
    · rw [List.get?_set_ne _ _ hj] at hp2
      exact hids j p2 hp2
  · intro x hx
    simp only [List.length_set]
    rcases List.mem_or_eq_of_mem_set hx with hx | hx
    · exact hdom x hx
    · subst hx
      exact hdom o (List.get?_mem ho)
  · intro j p2 s hp2 hs
    have hset := outstanding_set ords k { o with estado := Estado.Cancelada } o ho (i := j)
    by_cases hj : o.publicacion.id_publicacion = j
    · subst hj
      rw [List.get?_set_eq_of_lt _ hpidx] at hp2
      cases hp2
      have hold := hsum o.publicacion.id_publicacion p s hp hs
      have hc1 : contrib o.publicacion.id_publicacion o = o.cantidad := by
        simp [contrib, he]
      have hc2 : contrib o.publicacion.id_publicacion { o with estado := Estado.Cancelada } = 0 := by
        simp [contrib]
      simp only [hc1, hc2] at hset
      simp
      omega
    · rw [List.get?_set_ne _ _ hj] at hp2
      have hold := hsum j p2 s hp2 hs
      have hc1 : contrib j o = 0 := by
        simp [contrib]
        intro hcon
        exact absurd hcon hj
      have hc2 : contrib j { o with estado := Estado.Cancelada } = 0 := by
        simp [contrib]
      simp only [hc1, hc2] at hset
      omega

theorem stockInv_gstep (m : Marketplace) (inits : List Nat) (op : Op)
    (h : StockInv m.publicaciones m.ordenes_compra inits) :
    StockInv (gstep (m, inits) op).1.publicaciones (gstep (m, inits) op).1.ordenes_compra
      (gstep (m, inits) op).2 := by
  cases op with
  | registrar c un r =>
    rcases shape_registrar m c un r with hs | ⟨u, hs⟩ <;>
      simp only [gstep, step, hs] <;> simpa using h
  | cambiar_rol c r =>
    rcases shape_cambiar_rol m c r with hs | ⟨k, u, hs⟩ <;>
      simp only [gstep, step, hs] <;> simpa using h
  | publicar c n d pr cat st =>
    rcases shape_publicar m c n d pr cat st with hs | ⟨u, pub, pm, hu, hpub, hs, hpm⟩
    · simp only [gstep, step, hs]; simpa using h
    · subst hpub
      simp only [gstep, step, hs]
      simpa using stockInv_pub_append m.publicaciones m.ordenes_compra inits _ h rfl
  | ordenar_compra c idx q =>
    rcases shape_ordenar m c idx q with hs | ⟨u, p0, om, hu, hp0, hq, hs, hom⟩
    · simp only [gstep, step, hs]; simpa using h
    · simp only [gstep, step, hs]
      simpa using stockInv_ordenar m.publicaciones m.ordenes_compra inits idx q
        u.account_id p0 h hp0 hq
  | marcar_enviado c k =>
    rcases shape_enviado m c k with hs | ⟨o, ho, he, hs⟩
    · simp only [gstep, step, hs]; simpa using h
    · simp only [gstep, step, hs]
      simpa using stockInv_estado_set m.publicaciones m.ordenes_compra inits k o
        { o with estado := Estado.Enviada } h ho rfl rfl (by simp [he])
  | marcar_recibido c k =>
    rcases shape_recibido m c k with hs | ⟨o, ho, he, hs⟩
    · simp only [gstep, step, hs]; simpa using h
    · simp only [gstep, step, hs]
      simpa using stockInv_estado_set m.publicaciones m.ordenes_compra inits k o
        { o with estado := Estado.Recibida } h ho rfl rfl (by simp [he])
  | cancelar_orden c k =>
    rcases shape_cancelar m c k with hs | ⟨o, ho, he, hb, hs⟩ | ⟨o, p, ho, he, hb, hv, hpet, hp, hov, hs⟩
    · simp only [gstep, step, hs]; simpa using h
    · simp only [gstep, step, hs]
      simpa using stockInv_estado_set m.publicaciones m.ordenes_compra inits k o
        { o with peticion_cancelacion := true } h ho rfl rfl rfl
    · simp only [gstep, step, hs]
      simpa using stockInv_cancel m.publicaciones m.ordenes_compra inits k o p h ho he hp

theorem foldl_gstep_fst (ops : List Op) : ∀ p : Marketplace × List Nat,
    (List.foldl gstep p ops).1 = List.foldl step p.1 ops := by
  induction ops with
  | nil => intro p; rfl
  | cons op ops ih =>
    intro p
    rw [List.foldl_cons, List.foldl_cons]
    exact ih (gstep p op)

theorem runG_fst (ops : List Op) : (runG ops).1 = run ops :=
  foldl_gstep_fst ops (Marketplace.new, [])

theorem stockInv_runG (ops : List Op) :
    StockInv (runG ops).1.publicaciones (runG ops).1.ordenes_compra (runG ops).2 := by
  have main : ∀ (l : List Op) (p : Marketplace × List Nat),
      StockInv p.1.publicaciones p.1.ordenes_compra p.2 →
      StockInv (List.foldl gstep p l).1.publicaciones
        (List.foldl gstep p l).1.ordenes_compra (List.foldl gstep p l).2 := by
    intro l
    induction l with
    | nil => intro p h; exact h
    | cons op l2 ih =>
      intro p h
      rw [List.foldl_cons]
      exact ih (gstep p op) (stockInv_gstep p.1 p.2 op h)
  refine main ops (Marketplace.new, []) ⟨rfl, ?_, ?_, ?_⟩
  · intro j p hp
    simp [Marketplace.new] at hp
  · intro o ho
    simp [Marketplace.new] at ho
  · intro j p s hp hs
    simp [Marketplace.new] at hp

/-- C1: counterexample to the claim as literally stated.  On the trace
register-seller, register-buyer, publish (stock 20), order (quantity 5),
buyer requests cancellation, seller approves, the order reaches `Cancelada`
and the publication's stock is back to 20 — but the claim's formula
initial − (non-cancelled quantities) + (cancelled quantities) = 20 − 0 + 5 = 25
does not equal the actual stock 20: the code restores cancelled quantities, it
does not add them on top of the initial stock. -/
theorem stock_formula_counterexample :
    ((run [Op.registrar 1 "s" Rol.Vendedor, Op.registrar 2 "b" Rol.Comprador,
           Op.publicar 1 "w" "d" 100 Categoria.Computacion 20,
           Op.ordenar_compra 2 0 5, Op.cancelar_orden 2 0,
           Op.cancelar_orden 1 0]).publicaciones.map Publicacion.stock = [20]) ∧
    ((runG [Op.registrar 1 "s" Rol.Vendedor, Op.registrar 2 "b" Rol.Comprador,
            Op.publicar 1 "w" "d" 100 Categoria.Computacion 20,
            Op.ordenar_compra 2 0 5, Op.cancelar_orden 2 0,
            Op.cancelar_orden 1 0]).2 = [20]) ∧
    (outstanding (run [Op.registrar 1 "s" Rol.Vendedor, Op.registrar 2 "b" Rol.Comprador,
           Op.publicar 1 "w" "d" 100 Categoria.Computacion 20,
           Op.ordenar_compra 2 0 5, Op.cancelar_orden 2 0,
           Op.cancelar_orden 1 0]).ordenes_compra 0 = 0) ∧
    (cancelledQty (run [Op.registrar 1 "s" Rol.Vendedor, Op.registrar 2 "b" Rol.Comprador,
           Op.publicar 1 "w" "d" 100 Categoria.Computacion 20,
           Op.ordenar_compra 2 0 5, Op.cancelar_orden 2 0,
           Op.cancelar_orden 1 0]).ordenes_compra 0 = 5) ∧
    (20 : Nat) ≠ 20 - 0 + 5 := by
  refine ⟨by decide, by decide, by decide, by decide, by decide⟩

/-- C1 (amended): along every operation sequence from the empty marketplace,
every publication's stock is ≥ 0 and satisfies
stock + (sum of quantities of non-cancelled orders against it) = initial stock,
i.e. stock = initial − (sum over ALL orders) + (sum over cancelled orders);
the ghost list `(runG ops).2` records each publication's initial stock. -/
theorem stock_accounting (ops : List Op) (j : Nat) (p : Publicacion) (s : Nat)
    (hp : (run ops).publicaciones.get? j = some p)
    (hs : (runG ops).2.get? j = some s) :
    0 ≤ p.stock ∧
    p.stock + outstanding (run ops).ordenes_compra j = s ∧
    p.stock = s - outstanding (run ops).ordenes_compra j := by
  have hinv := stockInv_runG ops
  obtain ⟨hlen, hids, hdom, hsum⟩ := hinv
  rw [← runG_fst ops] at hp
  have hmain := hsum j p s hp hs
  rw [runG_fst ops] at hmain
  exact ⟨Nat.zero_le _, hmain, by omega⟩

/-- Witness for `stock_accounting` at a concrete four-operation trace. -/
theorem stock_accounting_witness :
    ((run [Op.registrar 1 "s" Rol.Vendedor, Op.registrar 2 "b" Rol.Comprador,
           Op.publicar 1 "w" "d" 5 Categoria.Computacion 10,
           Op.ordenar_compra 2 0 3]).publicaciones.get? 0 =
      some { id_publicacion := 0, nombre := "w", descripcion := "d", precio := 5,
             categoria := Categoria.Computacion, stock := 7, vendedor_id := 1 }) ∧
    ((runG [Op.registrar 1 "s" Rol.Vendedor, Op.registrar 2 "b" Rol.Comprador,
            Op.publicar 1 "w" "d" 5 Categoria.Computacion 10,
            Op.ordenar_compra 2 0 3]).2.get? 0 = some 10) ∧
    (0 ≤ ({ id_publicacion := 0, nombre := "w", descripcion := "d", precio := 5,
            categoria := Categoria.Computacion, stock := 7,
            vendedor_id := 1 } : Publicacion).stock ∧
     ({ id_publicacion := 0, nombre := "w", descripcion := "d", precio := 5,
        categoria := Categoria.Computacion, stock := 7,
        vendedor_id := 1 } : Publicacion).stock +
       outstanding (run [Op.registrar 1 "s" Rol.Vendedor, Op.registrar 2 "b" Rol.Comprador,
           Op.publicar 1 "w" "d" 5 Categoria.Computacion 10,
           Op.ordenar_compra 2 0 3]).ordenes_compra 0 = 10 ∧
     ({ id_publicacion := 0, nombre := "w", descripcion := "d", precio := 5,
        categoria := Categoria.Computacion, stock := 7,
        vendedor_id := 1 } : Publicacion).stock =
       10 - outstanding (run [Op.registrar 1 "s" Rol.Vendedor, Op.registrar 2 "b" Rol.Comprador,
           Op.publicar 1 "w" "d" 5 Categoria.Computacion 10,
           Op.ordenar_compra 2 0 3]).ordenes_compra 0) :=
  ⟨by decide, by decide,
   stock_accounting
     [Op.registrar 1 "s" Rol.Vendedor, Op.registrar 2 "b" Rol.Comprador,
      Op.publicar 1 "w" "d" 5 Categoria.Computacion 10, Op.ordenar_compra 2 0 3]
     0
     { id_publicacion := 0, nombre := "w", descripcion := "d", precio := 5,
       categoria := Categoria.Computacion, stock := 7, vendedor_id := 1 }
     10 (by decide) (by decide)⟩

/-- C8: for every state and caller without a user record, `_registrar_usuario`
succeeds returning the new record, an immediately following `_get_usuario` by
the same caller returns exactly that record, and a second registration by the
same caller fails with `UsuarioYaRegistrado` leaving the state unchanged. -/
theorem registrar_lookup (m : Marketplace) (c : AccountId) (un : String) (r : Rol)
    (h : Mapping.get m.usuarios c = none) :
    (_registrar_usuario m c un r).1 =
      Except.ok { username := un, rol := r, account_id := c } ∧
    _get_usuario (_registrar_usuario m c un r).2 c =
      Except.ok { username := un, rol := r, account_id := c } ∧
    (∀ (un2 : String) (r2 : Rol),
      _registrar_usuario (_registrar_usuario m c un r).2 c un2 r2 =
        (Except.error ErrorSistema.UsuarioYaRegistrado, (_registrar_usuario m c un r).2)) := by
  refine ⟨?_, ?_, ?_⟩
  · simp [_registrar_usuario, h]
  · simp [_registrar_usuario, h, _get_usuario, Mapping.get_insert_self]
  · intro un2 r2
    simp [_registrar_usuario, h, Mapping.get_insert_self]

/-- Witness for `registrar_lookup` on the empty marketplace. -/
theorem registrar_lookup_witness :
    Mapping.get Marketplace.new.usuarios 7 = none ∧
    ((_registrar_usuario Marketplace.new 7 "a" Rol.Ambos).1 =
      Except.ok { username := "a", rol := Rol.Ambos, account_id := 7 } ∧
    _get_usuario (_registrar_usuario Marketplace.new 7 "a" Rol.Ambos).2 7 =
      Except.ok { username := "a", rol := Rol.Ambos, account_id := 7 } ∧
    (∀ (un2 : String) (r2 : Rol),
      _registrar_usuario (_registrar_usuario Marketplace.new 7 "a" Rol.Ambos).2 7 un2 r2 =
        (Except.error ErrorSistema.UsuarioYaRegistrado,
         (_registrar_usuario Marketplace.new 7 "a" Rol.Ambos).2))) :=
  ⟨rfl, registrar_lookup Marketplace.new 7 "a" Rol.Ambos rfl⟩

/-! Helper lemmas about `_ordenar_compra` on a registered buyer and an existing
publication, shared by several theorems below. -/

theorem ordenar_sin_stock (m : Marketplace) (c : AccountId) (u : Usuario)
    (idx q : Nat) (p0 : Publicacion) (hu : Mapping.get m.usuarios c = some u)
    (hv : Usuario.es_comprador u = Except.ok true)
    (hp : m.publicaciones.get? idx = some p0) (hq : p0.stock < q) :
    _ordenar_compra m c idx q = (Except.error ErrorSistema.PublicacionSinStock, m) := by
  unfold _ordenar_compra _get_usuario
  rw [hu]
  simp only [hv, hp, checked_sub, if_neg (by omega : ¬ q ≤ p0.stock)]

theorem ordenar_success_parts (m : Marketplace) (c : AccountId) (u : Usuario)
    (idx q : Nat) (p0 : Publicacion) (hu : Mapping.get m.usuarios c = some u)
    (hacc : u.account_id = c) (hv : Usuario.es_comprador u = Except.ok true)
    (hp : m.publicaciones.get? idx = some p0) (hq : q ≤ p0.stock) :
    (_ordenar_compra m c idx q).1 ≠ Except.error ErrorSistema.PublicacionSinStock ∧
    (_ordenar_compra m c idx q).2.publicaciones =
      m.publicaciones.set idx { p0 with stock := p0.stock - q } ∧
    (_ordenar_compra m c idx q).2.ordenes_compra =
      m.ordenes_compra ++
        [{ estado := Estado.Pendiente, publicacion := { p0 with stock := p0.stock - q },
           comprador_id := c, peticion_cancelacion := false, cantidad := q }] := by
  unfold _ordenar_compra _get_usuario
  rw [hu]
  simp only [hv, hp, checked_sub, if_pos hq, hacc]
  refine ⟨?_, ?_, ?_⟩ <;> split <;> simp

/-- C6: for a registered buyer-capable caller and an existing publication,
`_ordenar_compra` fails with `PublicacionSinStock` exactly when the requested
quantity exceeds the current stock (leaving the state unchanged); otherwise it
replaces the publication with its stock decremented by the quantity and appends
a `Pendiente` order whose snapshot is the post-decrement publication, whose
buyer is the caller, whose cancellation flag is false and whose quantity is the
requested one. -/
theorem ordenar_compra_spec (m : Marketplace) (c : AccountId) (u : Usuario)
    (idx q : Nat) (p0 : Publicacion) (hu : Mapping.get m.usuarios c = some u)
    (hacc : u.account_id = c) (hv : Usuario.es_comprador u = Except.ok true)
    (hp : m.publicaciones.get? idx = some p0) :
    ((_ordenar_compra m c idx q).1 = Except.error ErrorSistema.PublicacionSinStock ↔
      p0.stock < q) ∧
    (p0.stock < q → (_ordenar_compra m c idx q).2 = m) ∧
    (q ≤ p0.stock →
      (_ordenar_compra m c idx q).2.publicaciones =
        m.publicaciones.set idx { p0 with stock := p0.stock - q } ∧
      (_ordenar_compra m c idx q).2.ordenes_compra =
        m.ordenes_compra ++
          [{ estado := Estado.Pendiente, publicacion := { p0 with stock := p0.stock - q },
             comprador_id := c, peticion_cancelacion := false, cantidad := q }]) := by
  by_cases hq : q ≤ p0.stock
  · have hparts := ordenar_success_parts m c u idx q p0 hu hacc hv hp hq
    refine ⟨⟨fun hcon => absurd hcon hparts.1, fun hcon => absurd hcon (by omega)⟩,
      fun hcon => absurd hcon (by omega), fun _ => ⟨hparts.2.1, hparts.2.2⟩⟩
  · have hq2 : p0.stock < q := by omega
    have herr := ordenar_sin_stock m c u idx q p0 hu hv hp hq2
    rw [herr]
    exact ⟨⟨fun _ => hq2, fun _ => rfl⟩, fun _ => rfl, fun hcon => absurd hcon hq⟩

/-- Witness for `ordenar_compra_spec`: a concrete marketplace with one seller,
one buyer and one publication of stock 10, ordering quantity 4. -/
theorem ordenar_compra_spec_witness :
    (Mapping.get (run [Op.registrar 1 "s" Rol.Vendedor, Op.registrar 2 "b" Rol.Comprador,
        Op.publicar 1 "w" "d" 5 Categoria.Computacion 10]).usuarios 2 =
      some { username := "b", rol := Rol.Comprador, account_id := 2 }) ∧
    (({ username := "b", rol := Rol.Comprador, account_id := 2 } : Usuario).account_id = 2) ∧
    (Usuario.es_comprador { username := "b", rol := Rol.Comprador, account_id := 2 } =
      Except.ok true) ∧
    ((run [Op.registrar 1 "s" Rol.Vendedor, Op.registrar 2 "b" Rol.Comprador,
        Op.publicar 1 "w" "d" 5 Categoria.Computacion 10]).publicaciones.get? 0 =
      some { id_publicacion := 0, nombre := "w", descripcion := "d", precio := 5,
             categoria := Categoria.Computacion, stock := 10, vendedor_id := 1 }) ∧
    ((_ordenar_compra (run [Op.registrar 1 "s" Rol.Vendedor, Op.registrar 2 "b" Rol.Comprador,
        Op.publicar 1 "w" "d" 5 Categoria.Computacion 10]) 2 0 4).1 =
        Except.error ErrorSistema.PublicacionSinStock ↔
      ({ id_publicacion := 0, nombre := "w", descripcion := "d", precio := 5,
         categoria := Categoria.Computacion, stock := 10,
         vendedor_id := 1 } : Publicacion).stock < 4) :=
  ⟨by decide, rfl, rfl, by decide,
   (ordenar_compra_spec (run [Op.registrar 1 "s" Rol.Vendedor, Op.registrar 2 "b" Rol.Comprador,
        Op.publicar 1 "w" "d" 5 Categoria.Computacion 10]) 2
      { username := "b", rol := Rol.Comprador, account_id := 2 } 0 4
      { id_publicacion := 0, nombre := "w", descripcion := "d", precio := 5,
        categoria := Categoria.Computacion, stock := 10, vendedor_id := 1 }
      (by decide) rfl rfl (by decide)).1⟩

/-- C7: counterexample.  A registered buyer can place an order with quantity 0
against an existing publication; the resulting reachable state contains an
order whose quantity is 0, so order quantities are not strictly positive. -/
theorem orden_cantidad_cero_counterexample :
    ((run [Op.registrar 1 "s" Rol.Vendedor, Op.registrar 2 "b" Rol.Comprador,
           Op.publicar 1 "w" "d" 5 Categoria.Computacion 10,
           Op.ordenar_compra 2 0 0]).ordenes_compra.map OrdenCompra.cantidad = [0]) ∧
    ¬ (∀ o ∈ (run [Op.registrar 1 "s" Rol.Vendedor, Op.registrar 2 "b" Rol.Comprador,
           Op.publicar 1 "w" "d" 5 Categoria.Computacion 10,
           Op.ordenar_compra 2 0 0]).ordenes_compra, 0 < o.cantidad) := by
  refine ⟨by decide, by decide⟩

/-- C7 (amended): the code never validates the quantity, so placing an order
with quantity 0 succeeds whenever the caller is a registered buyer and the
publication exists: it appends a `Pendiente` order with quantity 0 and leaves
the publication's stock unchanged (stock − 0). -/
theorem ordenar_cantidad_cero (m : Marketplace) (c : AccountId) (u : Usuario)
    (idx : Nat) (p0 : Publicacion) (hu : Mapping.get m.usuarios c = some u)
    (hacc : u.account_id = c) (hv : Usuario.es_comprador u = Except.ok true)
    (hp : m.publicaciones.get? idx = some p0) :
    (_ordenar_compra m c idx 0).1 ≠ Except.error ErrorSistema.PublicacionSinStock ∧
    (_ordenar_compra m c idx 0).2.publicaciones =
      m.publicaciones.set idx { p0 with stock := p0.stock - 0 } ∧
    (_ordenar_compra m c idx 0).2.ordenes_compra =
      m.ordenes_compra ++
        [{ estado := Estado.Pendiente, publicacion := { p0 with stock := p0.stock - 0 },
           comprador_id := c, peticion_cancelacion := false, cantidad := 0 }] :=
  ordenar_success_parts m c u idx 0 p0 hu hacc hv hp (Nat.zero_le _)

/-- Witness for `ordenar_cantidad_cero` at a concrete state. -/
theorem ordenar_cantidad_cero_witness :
    (Mapping.get (run [Op.registrar 1 "s" Rol.Vendedor, Op.registrar 2 "b" Rol.Comprador,
        Op.publicar 1 "w" "d" 5 Categoria.Computacion 10]).usuarios 2 =
      some { username := "b", rol := Rol.Comprador, account_id := 2 }) ∧
    ((run [Op.registrar 1 "s" Rol.Vendedor, Op.registrar 2 "b" Rol.Comprador,
        Op.publicar 1 "w" "d" 5 Categoria.Computacion 10]).publicaciones.get? 0 =
      some { id_publicacion := 0, nombre := "w", descripcion := "d", precio := 5,
             categoria := Categoria.Computacion, stock := 10, vendedor_id := 1 }) ∧
    (_ordenar_compra (run [Op.registrar 1 "s" Rol.Vendedor, Op.registrar 2 "b" Rol.Comprador,
        Op.publicar 1 "w" "d" 5 Categoria.Computacion 10]) 2 0 0).1 ≠
      Except.error ErrorSistema.PublicacionSinStock :=
  ⟨by decide, by decide,
   (ordenar_cantidad_cero (run [Op.registrar 1 "s" Rol.Vendedor, Op.registrar 2 "b" Rol.Comprador,
        Op.publicar 1 "w" "d" 5 Categoria.Computacion 10]) 2
      { username := "b", rol := Rol.Comprador, account_id := 2 } 0
      { id_publicacion := 0, nombre := "w", descripcion := "d", precio := 5,
        categoria := Categoria.Computacion, stock := 10, vendedor_id := 1 }
      (by decide) rfl rfl (by decide)).1⟩

/-- C5: counterexample.  With a registered `Ambos` user and an empty order
ledger, index 0 is out of range, and all three order operations fail with
`PublicacionNoExistente` — the error documented as "the requested publication
does not exist" — because `ErrorSistema` has no order-not-found variant at
all; the claim's `OrderNotFound` (distinct from any publication-related
error) does not match the code. -/
theorem orden_not_found_counterexample :
    (_marcar_enviado (run [Op.registrar 1 "s" Rol.Ambos]) 1 0).1 =
      Except.error ErrorSistema.PublicacionNoExistente ∧
    (_marcar_recibido (run [Op.registrar 1 "s" Rol.Ambos]) 1 0).1 =
      Except.error ErrorSistema.PublicacionNoExistente ∧
    (_cancelar_orden (run [Op.registrar 1 "s" Rol.Ambos]) 1 0).1 =
      Except.error ErrorSistema.PublicacionNoExistente := by
  refine ⟨by decide, by decide, by decide⟩

/-- C5 (amended): for every registered caller with the required role and every
order index out of range, `_marcar_enviado`, `_marcar_recibido` and
`_cancelar_orden` fail with `PublicacionNoExistente` (the same variant used
for missing publications) and leave the state unchanged. -/
theorem orden_out_of_range (m : Marketplace) (c : AccountId) (u : Usuario) (idx : Nat)
    (hu : Mapping.get m.usuarios c = some u)
    (hidx : m.ordenes_compra.length ≤ idx) :
    (Usuario.es_vendedor u = Except.ok true →
      _marcar_enviado m c idx = (Except.error ErrorSistema.PublicacionNoExistente, m)) ∧
    (Usuario.es_comprador u = Except.ok true →
      _marcar_recibido m c idx = (Except.error ErrorSistema.PublicacionNoExistente, m)) ∧
    _cancelar_orden m c idx = (Except.error ErrorSistema.PublicacionNoExistente, m) := by
  have hnone : m.ordenes_compra.get? idx = none := List.get?_eq_none.mpr hidx
  refine ⟨?_, ?_, ?_⟩
  · intro hv
    unfold _marcar_enviado _get_usuario
    rw [hu]
    simp only [hv, hnone]
  · intro hv
    unfold _marcar_recibido _get_usuario
    rw [hu]
    simp only [hv, hnone]
  · unfold _cancelar_orden _get_usuario
    rw [hu]
    simp only [hnone]

/-- Witness for `orden_out_of_range` at a concrete state with an empty ledger. -/
theorem orden_out_of_range_witness :
    (Mapping.get (run [Op.registrar 1 "s" Rol.Ambos]).usuarios 1 =
      some { username := "s", rol := Rol.Ambos, account_id := 1 }) ∧
    ((run [Op.registrar 1 "s" Rol.Ambos]).ordenes_compra.length ≤ 0) ∧
    _cancelar_orden (run [Op.registrar 1 "s" Rol.Ambos]) 1 0 =
      (Except.error ErrorSistema.PublicacionNoExistente, run [Op.registrar 1 "s" Rol.Ambos]) :=
  ⟨by decide, by decide,
   (orden_out_of_range (run [Op.registrar 1 "s" Rol.Ambos]) 1
      { username := "s", rol := Rol.Ambos, account_id := 1 } 0
      (by decide) (by decide)).2.2⟩

/-- C4: counterexample.  For a Pending order whose buyer and seller are the
same `Ambos` account (a user who bought their own publication), the seller's
cancel call before any cancellation request does NOT fail with
`PeticionNoSolicitada`: the `caller == comprador_id` test fires first, so the
call takes the buyer branch, succeeds, and merely sets the request flag. -/
theorem cancel_self_order_counterexample :
    (((run [Op.registrar 1 "x" Rol.Ambos, Op.publicar 1 "w" "d" 5 Categoria.Computacion 10,
            Op.ordenar_compra 1 0 2]).ordenes_compra.get? 0).map
      (fun o => (o.estado, o.peticion_cancelacion, o.comprador_id, o.publicacion.vendedor_id)) =
      some (Estado.Pendiente, false, 1, 1)) ∧
    (_cancelar_orden (run [Op.registrar 1 "x" Rol.Ambos,
        Op.publicar 1 "w" "d" 5 Categoria.Computacion 10,
        Op.ordenar_compra 1 0 2]) 1 0).1 ≠
      Except.error ErrorSistema.PeticionNoSolicitada ∧
    ((_cancelar_orden (run [Op.registrar 1 "x" Rol.Ambos,
        Op.publicar 1 "w" "d" 5 Categoria.Computacion 10,
        Op.ordenar_compra 1 0 2]) 1 0).2.ordenes_compra.map
      (fun o => (o.estado, o.peticion_cancelacion)) = [(Estado.Pendiente, true)]) := by
  refine ⟨by decide, by decide, by decide⟩

/-- C4 (amended): for a Pending order whose buyer and seller are DISTINCT
accounts, with the seller registered: before the buyer's request the seller's
cancel fails `PeticionNoSolicitada` with the state unchanged; after the
request (flag true), provided the snapshot id resolves to a publication and
the restore does not overflow u64 (both automatic in reachable states), the
seller's cancel succeeds exactly once — it marks the order `Cancelada` and
adds exactly the order's quantity back to that publication's stock, and an
identical second call fails `OrdenNoPendiente`; any registered caller that is
neither buyer nor seller fails `SinPermisos`. -/
theorem cancel_handshake (m : Marketplace) (k : Nat) (o : OrdenCompra) (uv : Usuario)
    (ho : m.ordenes_compra.get? k = some o) (he : o.estado = Estado.Pendiente)
    (hne : o.comprador_id ≠ o.publicacion.vendedor_id)
    (hreg : Mapping.get m.usuarios o.publicacion.vendedor_id = some uv) :
    (o.peticion_cancelacion = false →
      _cancelar_orden m o.publicacion.vendedor_id k =
        (Except.error ErrorSistema.PeticionNoSolicitada, m)) ∧
    (o.peticion_cancelacion = true →
      ∀ p : Publicacion, m.publicaciones.get? o.publicacion.id_publicacion = some p →
        p.stock + o.cantidad ≤ u64Max →
        (_cancelar_orden m o.publicacion.vendedor_id k).1 =
          Except.ok { o with estado := Estado.Cancelada } ∧
        (_cancelar_orden m o.publicacion.vendedor_id k).2.publicaciones =
          m.publicaciones.set o.publicacion.id_publicacion
            { p with stock := p.stock + o.cantidad } ∧
        (_cancelar_orden m o.publicacion.vendedor_id k).2.ordenes_compra =
          m.ordenes_compra.set k { o with estado := Estado.Cancelada } ∧
        _cancelar_orden (_cancelar_orden m o.publicacion.vendedor_id k).2
            o.publicacion.vendedor_id k =
          (Except.error ErrorSistema.OrdenNoPendiente,
           (_cancelar_orden m o.publicacion.vendedor_id k).2)) ∧
    (∀ (c2 : AccountId) (u2 : Usuario), Mapping.get m.usuarios c2 = some u2 →
      c2 ≠ o.comprador_id → c2 ≠ o.publicacion.vendedor_id →
      _cancelar_orden m c2 k = (Except.error ErrorSistema.SinPermisos, m)) := by
  have hbne : ¬ (o.publicacion.vendedor_id = o.comprador_id) := fun hx => hne hx.symm
  have hk : k < m.ordenes_compra.length := (List.get?_eq_some.mp ho).1
  rw [List.get?_eq_getElem?] at ho
  refine ⟨?_, ?_, ?_⟩
  · intro hflag
    unfold _cancelar_orden _get_usuario
    rw [hreg]
    simp [ho, he, hbne, hflag]
  · intro hflag p hp hov
    have main : _cancelar_orden m o.publicacion.vendedor_id k =
        (Except.ok { o with estado := Estado.Cancelada },
         { m with
             publicaciones := m.publicaciones.set o.publicacion.id_publicacion
               { p with stock := p.stock + o.cantidad },
             ordenes_compra := m.ordenes_compra.set k
               { o with estado := Estado.Cancelada } }) := by
      unfold _cancelar_orden _get_usuario
      rw [hreg]
      rw [List.get?_eq_getElem?] at hp
      simp [ho, he, hbne, hflag, hp, checked_add64, hov]
    refine ⟨by rw [main], by rw [main], by rw [main], ?_⟩
    rw [main]
    unfold _cancelar_orden _get_usuario
    rw [hreg]
    simp [List.getElem?_set_eq hk]
  · intro c2 u2 hu2 hb2 hs2
    unfold _cancelar_orden _get_usuario
    rw [hu2]
    simp [ho, he, hb2, hs2]

/-- Witness for `cancel_handshake`: seller 1, buyer 2, publication of stock 10,
order of quantity 2 (stock 8), buyer has requested cancellation. -/
theorem cancel_handshake_witness :
    ((run [Op.registrar 1 "s" Rol.Vendedor, Op.registrar 2 "b" Rol.Comprador,
           Op.publicar 1 "w" "d" 5 Categoria.Computacion 10,
           Op.ordenar_compra 2 0 2, Op.cancelar_orden 2 0]).ordenes_compra.get? 0 =
      some { estado := Estado.Pendiente,
             publicacion := { id_publicacion := 0, nombre := "w", descripcion := "d",
                              precio := 5, categoria := Categoria.Computacion, stock := 8,
                              vendedor_id := 1 },
             comprador_id := 2, peticion_cancelacion := true, cantidad := 2 }) ∧
    ((2 : Nat) ≠ 1) ∧
    (Mapping.get (run [Op.registrar 1 "s" Rol.Vendedor, Op.registrar 2 "b" Rol.Comprador,
           Op.publicar 1 "w" "d" 5 Categoria.Computacion 10,
           Op.ordenar_compra 2 0 2, Op.cancelar_orden 2 0]).usuarios 1 =
      some { username := "s", rol := Rol.Vendedor, account_id := 1 }) ∧
    ((run [Op.registrar 1 "s" Rol.Vendedor, Op.registrar 2 "b" Rol.Comprador,
           Op.publicar 1 "w" "d" 5 Categoria.Computacion 10,
           Op.ordenar_compra 2 0 2, Op.cancelar_orden 2 0]).publicaciones.get? 0 =
      some { id_publicacion := 0, nombre := "w", descripcion := "d", precio := 5,
             categoria := Categoria.Computacion, stock := 8, vendedor_id := 1 }) ∧
    ((8 : Nat) + 2 ≤ u64Max) ∧
    (_cancelar_orden (run [Op.registrar 1 "s" Rol.Vendedor, Op.registrar 2 "b" Rol.Comprador,
           Op.publicar 1 "w" "d" 5 Categoria.Computacion 10,
           Op.ordenar_compra 2 0 2, Op.cancelar_orden 2 0]) 1 0).1 =
      Except.ok { estado := Estado.Cancelada,
                  publicacion := { id_publicacion := 0, nombre := "w", descripcion := "d",
                                   precio := 5, categoria := Categoria.Computacion, stock := 8,
                                   vendedor_id := 1 },
                  comprador_id := 2, peticion_cancelacion := true, cantidad := 2 } :=
  ⟨by decide, by decide, by decide, by decide, by decide,
   ((cancel_handshake (run [Op.registrar 1 "s" Rol.Vendedor, Op.registrar 2 "b" Rol.Comprador,
        Op.publicar 1 "w" "d" 5 Categoria.Computacion 10,
        Op.ordenar_compra 2 0 2, Op.cancelar_orden 2 0]) 0
      { estado := Estado.Pendiente,
        publicacion := { id_publicacion := 0, nombre := "w", descripcion := "d",
                         precio := 5, categoria := Categoria.Computacion, stock := 8,
                         vendedor_id := 1 },
        comprador_id := 2, peticion_cancelacion := true, cantidad := 2 }
      { username := "s", rol := Rol.Vendedor, account_id := 1 }
      (by decide) rfl (by decide) (by decide)).2.1 rfl
      { id_publicacion := 0, nombre := "w", descripcion := "d", precio := 5,
        categoria := Categoria.Computacion, stock := 8, vendedor_id := 1 }
      (by decide) (by decide)).1⟩

/-- C3: for any state and any single public mutating operation, an order
already in the ledger either keeps its state, or makes one of exactly three
transitions: `Pendiente` to `Enviada` via `marcar_enviado`, `Enviada` to
`Recibida` via `marcar_recibido`, or `Pendiente` to `Cancelada` via
`cancelar_orden`.  Hence along any operation sequence no other state change is
ever observable on any order. -/
theorem estado_transitions (m : Marketplace) (op : Op) (i : Nat) (o o2 : OrdenCompra)
    (hbefore : m.ordenes_compra.get? i = some o)
    (hafter : (step m op).ordenes_compra.get? i = some o2) :
    o2.estado = o.estado ∨
    (o.estado = Estado.Pendiente ∧ o2.estado = Estado.Enviada ∧
      ∃ c k, op = Op.marcar_enviado c k) ∨
    (o.estado = Estado.Enviada ∧ o2.estado = Estado.Recibida ∧
      ∃ c k, op = Op.marcar_recibido c k) ∨
    (o.estado = Estado.Pendiente ∧ o2.estado = Estado.Cancelada ∧
      ∃ c k, op = Op.cancelar_orden c k) := by
  have hi : i < m.ordenes_compra.length := (List.get?_eq_some.mp hbefore).1
  cases op with
  | registrar c un r =>
    left
    rcases shape_registrar m c un r with hs | ⟨u, hs⟩ <;>
      simp only [step, hs] at hafter <;>
      rw [hbefore] at hafter <;> cases hafter <;> rfl
  | cambiar_rol c r =>
    left
    rcases shape_cambiar_rol m c r with hs | ⟨k2, u, hs⟩ <;>
      simp only [step, hs] at hafter <;>
      rw [hbefore] at hafter <;> cases hafter <;> rfl
  | publicar c n d pr cat st =>
    left
    rcases shape_publicar m c n d pr cat st with hs | ⟨u, pub, pm, hu, hpub, hs, hpm⟩ <;>
      simp only [step, hs] at hafter <;>
      rw [hbefore] at hafter <;> cases hafter <;> rfl
  | ordenar_compra c idx q =>
    left
    rcases shape_ordenar m c idx q with hs | ⟨u, p0, om, hu, hp0, hq, hs, hom⟩
    · simp only [step, hs] at hafter
      rw [hbefore] at hafter
      cases hafter
      rfl
    · simp only [step, hs] at hafter
      rw [List.get?_append hi, hbefore] at hafter
      cases hafter
      rfl
  | marcar_enviado c k =>
    rcases shape_enviado m c k with hs | ⟨oo, hoo, hpend, hs⟩
    · left
      simp only [step, hs] at hafter
      rw [hbefore] at hafter
      cases hafter
      rfl
    · simp only [step, hs] at hafter
      by_cases hki : k = i
      · subst hki
        have hklen : k < m.ordenes_compra.length := (List.get?_eq_some.mp hoo).1
        rw [List.get?_eq_getElem?, List.getElem?_set_eq hklen] at hafter
        cases hafter
        rw [hbefore] at hoo
        cases hoo
        right; left
        exact ⟨hpend, rfl, c, k, rfl⟩
      · left
        rw [List.get?_set_ne _ _ hki, hbefore] at hafter
        cases hafter
        rfl
  | marcar_recibido c k =>
    rcases shape_recibido m c k with hs | ⟨oo, hoo, henv, hs⟩
    · left
      simp only [step, hs] at hafter
      rw [hbefore] at hafter
      cases hafter
      rfl
    · simp only [step, hs] at hafter
      by_cases hki : k = i
      · subst hki
        have hklen : k < m.ordenes_compra.length := (List.get?_eq_some.mp hoo).1
        rw [List.get?_eq_getElem?, List.getElem?_set_eq hklen] at hafter
        cases hafter
        rw [hbefore] at hoo
        cases hoo
        right; right; left
        exact ⟨henv, rfl, c, k, rfl⟩
      · left
        rw [List.get?_set_ne _ _ hki, hbefore] at hafter
        cases hafter
        rfl
  | cancelar_orden c k =>
    rcases shape_cancelar m c k with hs | ⟨oo, hoo, hpend, hb, hs⟩ |
      ⟨oo, p, hoo, hpend, hb, hv, hpet, hp, hov, hs⟩
    · left
      simp only [step, hs] at hafter
      rw [hbefore] at hafter
      cases hafter
      rfl
    · simp only [step, hs] at hafter
      by_cases hki : k = i
      · subst hki
        have hklen : k < m.ordenes_compra.length := (List.get?_eq_some.mp hoo).1
        rw [List.get?_eq_getElem?, List.getElem?_set_eq hklen] at hafter
        cases hafter
        rw [hbefore] at hoo
        cases hoo
        left
        exact hpend.symm ▸ rfl
      · left
        rw [List.get?_set_ne _ _ hki, hbefore] at hafter
        cases hafter
        rfl
    · simp only [step, hs] at hafter
      by_cases hki : k = i
      · subst hki
        have hklen : k < m.ordenes_compra.length := (List.get?_eq_some.mp hoo).1
        rw [List.get?_eq_getElem?, List.getElem?_set_eq hklen] at hafter
        cases hafter
        rw [hbefore] at hoo
        cases hoo
        right; right; right
        exact ⟨hpend, rfl, c, k, rfl⟩
      · left
        rw [List.get?_set_ne _ _ hki, hbefore] at hafter
        cases hafter
        rfl

/-- Witness for `estado_transitions`: marking a concrete Pending order shipped. -/
theorem estado_transitions_witness :
    ((run [Op.registrar 1 "s" Rol.Vendedor, Op.registrar 2 "b" Rol.Comprador,
           Op.publicar 1 "w" "d" 5 Categoria.Computacion 10,
           Op.ordenar_compra 2 0 2]).ordenes_compra.get? 0 =
      some { estado := Estado.Pendiente,
             publicacion := { id_publicacion := 0, nombre := "w", descripcion := "d",
                              precio := 5, categoria := Categoria.Computacion, stock := 8,
                              vendedor_id := 1 },
             comprador_id := 2, peticion_cancelacion := false, cantidad := 2 }) ∧
    ((step (run [Op.registrar 1 "s" Rol.Vendedor, Op.registrar 2 "b" Rol.Comprador,
           Op.publicar 1 "w" "d" 5 Categoria.Computacion 10,
           Op.ordenar_compra 2 0 2]) (Op.marcar_enviado 1 0)).ordenes_compra.get? 0 =
      some { estado := Estado.Enviada,
             publicacion := { id_publicacion := 0, nombre := "w", descripcion := "d",
                              precio := 5, categoria := Categoria.Computacion, stock := 8,
                              vendedor_id := 1 },
             comprador_id := 2, peticion_cancelacion := false, cantidad := 2 }) ∧
    (({ estado := Estado.Enviada,
        publicacion := { id_publicacion := 0, nombre := "w", descripcion := "d",
                         precio := 5, categoria := Categoria.Computacion, stock := 8,
                         vendedor_id := 1 },
        comprador_id := 2, peticion_cancelacion := false,
        cantidad := 2 } : OrdenCompra).estado =
      ({ estado := Estado.Pendiente,
         publicacion := { id_publicacion := 0, nombre := "w", descripcion := "d",
                          precio := 5, categoria := Categoria.Computacion, stock := 8,
                          vendedor_id := 1 },
         comprador_id := 2, peticion_cancelacion := false,
         cantidad := 2 } : OrdenCompra).estado ∨
     (({ estado := Estado.Pendiente,
         publicacion := { id_publicacion := 0, nombre := "w", descripcion := "d",
                          precio := 5, categoria := Categoria.Computacion, stock := 8,
                          vendedor_id := 1 },
         comprador_id := 2, peticion_cancelacion := false,
         cantidad := 2 } : OrdenCompra).estado = Estado.Pendiente ∧
      ({ estado := Estado.Enviada,
         publicacion := { id_publicacion := 0, nombre := "w", descripcion := "d",
                          precio := 5, categoria := Categoria.Computacion, stock := 8,
                          vendedor_id := 1 },
         comprador_id := 2, peticion_cancelacion := false,
         cantidad := 2 } : OrdenCompra).estado = Estado.Enviada ∧
      ∃ c k, Op.marcar_enviado 1 0 = Op.marcar_enviado c k) ∨
     (({ estado := Estado.Pendiente,
         publicacion := { id_publicacion := 0, nombre := "w", descripcion := "d",
                          precio := 5, categoria := Categoria.Computacion, stock := 8,
                          vendedor_id := 1 },
         comprador_id := 2, peticion_cancelacion := false,
         cantidad := 2 } : OrdenCompra).estado = Estado.Enviada ∧
      ({ estado := Estado.Enviada,
         publicacion := { id_publicacion := 0, nombre := "w", descripcion := "d",
                          precio := 5, categoria := Categoria.Computacion, stock := 8,
                          vendedor_id := 1 },
         comprador_id := 2, peticion_cancelacion := false,
         cantidad := 2 } : OrdenCompra).estado = Estado.Recibida ∧
      ∃ c k, Op.marcar_enviado 1 0 = Op.marcar_recibido c k) ∨
     (({ estado := Estado.Pendiente,
         publicacion := { id_publicacion := 0, nombre := "w", descripcion := "d",
                          precio := 5, categoria := Categoria.Computacion, stock := 8,
                          vendedor_id := 1 },
         comprador_id := 2, peticion_cancelacion := false,
         cantidad := 2 } : OrdenCompra).estado = Estado.Pendiente ∧
      ({ estado := Estado.Enviada,
         publicacion := { id_publicacion := 0, nombre := "w", descripcion := "d",
                          precio := 5, categoria := Categoria.Computacion, stock := 8,
                          vendedor_id := 1 },
         comprador_id := 2, peticion_cancelacion := false,
         cantidad := 2 } : OrdenCompra).estado = Estado.Cancelada ∧
      ∃ c k, Op.marcar_enviado 1 0 = Op.cancelar_orden c k)) :=
  ⟨by decide, by decide,
   estado_transitions (run [Op.registrar 1 "s" Rol.Vendedor, Op.registrar 2 "b" Rol.Comprador,
       Op.publicar 1 "w" "d" 5 Categoria.Computacion 10,
       Op.ordenar_compra 2 0 2]) (Op.marcar_enviado 1 0) 0
     { estado := Estado.Pendiente,
       publicacion := { id_publicacion := 0, nombre := "w", descripcion := "d",
                        precio := 5, categoria := Categoria.Computacion, stock := 8,
                        vendedor_id := 1 },
       comprador_id := 2, peticion_cancelacion := false, cantidad := 2 }
     { estado := Estado.Enviada,
       publicacion := { id_publicacion := 0, nombre := "w", descripcion := "d",
                        precio := 5, categoria := Categoria.Computacion, stock := 8,
                        vendedor_id := 1 },
       comprador_id := 2, peticion_cancelacion := false, cantidad := 2 }
     (by decide) (by decide)⟩

/-- Helper for C9: one operation whose caller is `usr` preserves "the order at
position `k` is a self-order of `usr` that is not `Cancelada`". -/
theorem self_order_step (m : Marketplace) (usr : AccountId) (k : Nat) (o : OrdenCompra)
    (op : Op) (hc : Op.caller op = usr)
    (ho : m.ordenes_compra.get? k = some o) (hb : o.comprador_id = usr)
    (hv : o.publicacion.vendedor_id = usr) (hnc : o.estado ≠ Estado.Cancelada) :
    ∃ o2, (step m op).ordenes_compra.get? k = some o2 ∧ o2.comprador_id = usr ∧
      o2.publicacion.vendedor_id = usr ∧ o2.estado ≠ Estado.Cancelada := by
  have hk : k < m.ordenes_compra.length := (List.get?_eq_some.mp ho).1
  cases op with
  | registrar c un r =>
    rcases shape_registrar m c un r with hs | ⟨u, hs⟩ <;>
      exact ⟨o, by simp only [step, hs]; exact ho, hb, hv, hnc⟩
  | cambiar_rol c r =>
    rcases shape_cambiar_rol m c r with hs | ⟨k2, u, hs⟩ <;>
      exact ⟨o, by simp only [step, hs]; exact ho, hb, hv, hnc⟩
  | publicar c n d pr cat st =>
    rcases shape_publicar m c n d pr cat st with hs | ⟨u, pub, pm, hu, hpub, hs, hpm⟩ <;>
      exact ⟨o, by simp only [step, hs]; exact ho, hb, hv, hnc⟩
  | ordenar_compra c idx q =>
    rcases shape_ordenar m c idx q with hs | ⟨u, p0, om, hu, hp0, hq, hs, hom⟩
    · exact ⟨o, by simp only [step, hs]; exact ho, hb, hv, hnc⟩
    · refine ⟨o, ?_, hb, hv, hnc⟩
      simp only [step, hs]
      rw [List.get?_append hk]
      exact ho
  | marcar_enviado c j =>
    rcases shape_enviado m c j with hs | ⟨oo, hoo, hpend, hs⟩
    · exact ⟨o, by simp only [step, hs]; exact ho, hb, hv, hnc⟩
    · by_cases hjk : j = k
      · subst hjk
        rw [ho] at hoo
        cases hoo
        refine ⟨{ o with estado := Estado.Enviada }, ?_, hb, hv, by simp⟩
        simp only [step, hs]
        rw [List.get?_eq_getElem?]
        exact List.getElem?_set_eq hk
      · refine ⟨o, ?_, hb, hv, hnc⟩
        simp only [step, hs]
        rw [List.get?_set_ne _ _ hjk]
        exact ho
  | marcar_recibido c j =>
    rcases shape_recibido m c j with hs | ⟨oo, hoo, henv, hs⟩
    · exact ⟨o, by simp only [step, hs]; exact ho, hb, hv, hnc⟩
    · by_cases hjk : j = k
      · subst hjk
        rw [ho] at hoo
        cases hoo
        refine ⟨{ o with estado := Estado.Recibida }, ?_, hb, hv, by simp⟩
        simp only [step, hs]
        rw [List.get?_eq_getElem?]
        exact List.getElem?_set_eq hk
      · refine ⟨o, ?_, hb, hv, hnc⟩
        simp only [step, hs]
        rw [List.get?_set_ne _ _ hjk]
        exact ho
  | cancelar_orden c j =>
    rcases shape_cancelar m c j with hs | ⟨oo, hoo, hpend, hbc, hs⟩ |
      ⟨oo, p, hoo, hpend, hbc, hvc, hpet, hp, hov, hs⟩
    · exact ⟨o, by simp only [step, hs]; exact ho, hb, hv, hnc⟩
    · by_cases hjk : j = k
      · subst hjk
        rw [ho] at hoo
        cases hoo
        refine ⟨{ o with peticion_cancelacion := true }, ?_, hb, hv, ?_⟩
        · simp only [step, hs]
          rw [List.get?_eq_getElem?]
          exact List.getElem?_set_eq hk
        · simp [hpend]
      · refine ⟨o, ?_, hb, hv, hnc⟩
        simp only [step, hs]
        rw [List.get?_set_ne _ _ hjk]
        exact ho
    · by_cases hjk : j = k
      · subst hjk
        rw [ho] at hoo
        cases hoo
        simp only [Op.caller] at hc
        exact absurd (hc.trans hb.symm) hbc
      · refine ⟨o, ?_, hb, hv, hnc⟩
        simp only [step, hs]
        rw [List.get?_set_ne _ _ hjk]
        exact ho

/-- Helper for C9: along any operation sequence all of whose callers are
`usr`, a non-cancelled self-order of `usr` never becomes `Cancelada`. -/
theorem self_order_runFrom (usr : AccountId) (k : Nat) (ops : List Op) :
    ∀ (m : Marketplace) (o : OrdenCompra), (∀ op ∈ ops, Op.caller op = usr) →
    m.ordenes_compra.get? k = some o → o.comprador_id = usr →
    o.publicacion.vendedor_id = usr → o.estado ≠ Estado.Cancelada →
    ∀ o2, (runFrom m ops).ordenes_compra.get? k = some o2 →
      o2.estado ≠ Estado.Cancelada := by
  induction ops with
  | nil =>
    intro m o hall ho hb hv hnc o2 h2
    simp only [runFrom, List.foldl_nil] at h2
    rw [ho] at h2
    cases h2
    exact hnc
  | cons op ops ih =>
    intro m o hall ho hb hv hnc o2 h2
    simp only [runFrom, List.foldl_cons] at h2
    obtain ⟨o3, h3, hb3, hv3, hnc3⟩ :=
      self_order_step m usr k o op (hall op (by simp)) ho hb hv hnc
    exact ih (step m op) o3 (fun op2 hop2 => hall op2 (by simp [hop2])) h3 hb3 hv3 hnc3 o2 h2

/-- C9: for an order whose buyer and snapshot seller are the same account
`usr`, a cancel call by `usr` on the Pending order always takes the buyer
branch — it succeeds, sets the cancellation-request flag and leaves the state
`Pendiente` and the catalog untouched — and consequently no sequence of
operations all performed by `usr` can ever bring that order to `Cancelada`. -/
theorem self_order_cancel_unreachable (m : Marketplace) (usr : AccountId) (k : Nat)
    (o : OrdenCompra) (ho : m.ordenes_compra.get? k = some o)
    (hb : o.comprador_id = usr) (hv : o.publicacion.vendedor_id = usr) :
    (o.estado = Estado.Pendiente → ∀ u2, Mapping.get m.usuarios usr = some u2 →
      (_cancelar_orden m usr k).1 = Except.ok { o with peticion_cancelacion := true } ∧
      (_cancelar_orden m usr k).2.ordenes_compra =
        m.ordenes_compra.set k { o with peticion_cancelacion := true } ∧
      (_cancelar_orden m usr k).2.publicaciones = m.publicaciones) ∧
    (o.estado ≠ Estado.Cancelada →
      ∀ ops : List Op, (∀ op ∈ ops, Op.caller op = usr) →
        ∀ o2, (runFrom m ops).ordenes_compra.get? k = some o2 →
          o2.estado ≠ Estado.Cancelada) := by
  constructor
  · intro hpend u2 hu2
    have main : _cancelar_orden m usr k =
        (Except.ok { o with peticion_cancelacion := true },
         { m with ordenes_compra :=
             m.ordenes_compra.set k { o with peticion_cancelacion := true } }) := by
      unfold _cancelar_orden _get_usuario
      rw [hu2]
      rw [List.get?_eq_getElem?] at ho
      simp [ho, hpend, hb.symm]
    rw [main]
    exact ⟨rfl, rfl, rfl⟩
  · intro hnc ops hall o2 h2
    exact self_order_runFrom usr k ops m o hall ho hb hv hnc o2 h2

/-- Witness for `self_order_cancel_unreachable`: an `Ambos` user that bought
their own publication. -/
theorem self_order_cancel_unreachable_witness :
    ((run [Op.registrar 1 "x" Rol.Ambos, Op.publicar 1 "w" "d" 5 Categoria.Computacion 10,
           Op.ordenar_compra 1 0 2]).ordenes_compra.get? 0 =
      some { estado := Estado.Pendiente,
             publicacion := { id_publicacion := 0, nombre := "w", descripcion := "d",
                              precio := 5, categoria := Categoria.Computacion, stock := 8,
                              vendedor_id := 1 },
             comprador_id := 1, peticion_cancelacion := false, cantidad := 2 }) ∧
    ((_cancelar_orden (run [Op.registrar 1 "x" Rol.Ambos,
        Op.publicar 1 "w" "d" 5 Categoria.Computacion 10,
        Op.ordenar_compra 1 0 2]) 1 0).1 =
      Except.ok { estado := Estado.Pendiente,
                  publicacion := { id_publicacion := 0, nombre := "w", descripcion := "d",
                                   precio := 5, categoria := Categoria.Computacion, stock := 8,
                                   vendedor_id := 1 },
                  comprador_id := 1, peticion_cancelacion := true, cantidad := 2 }) ∧
    (∀ o2, (runFrom (run [Op.registrar 1 "x" Rol.Ambos,
        Op.publicar 1 "w" "d" 5 Categoria.Computacion 10,
        Op.ordenar_compra 1 0 2]) [Op.cancelar_orden 1 0, Op.cancelar_orden 1 0,
          Op.marcar_enviado 1 0]).ordenes_compra.get? 0 = some o2 →
      o2.estado ≠ Estado.Cancelada) :=
  ⟨by decide,
   ((self_order_cancel_unreachable (run [Op.registrar 1 "x" Rol.Ambos,
        Op.publicar 1 "w" "d" 5 Categoria.Computacion 10,
        Op.ordenar_compra 1 0 2]) 1 0
      { estado := Estado.Pendiente,
        publicacion := { id_publicacion := 0, nombre := "w", descripcion := "d",
                         precio := 5, categoria := Categoria.Computacion, stock := 8,
                         vendedor_id := 1 },
        comprador_id := 1, peticion_cancelacion := false, cantidad := 2 }
      (by decide) rfl rfl).1 rfl
      { username := "x", rol := Rol.Ambos, account_id := 1 } (by decide)).1,
   (self_order_cancel_unreachable (run [Op.registrar 1 "x" Rol.Ambos,
        Op.publicar 1 "w" "d" 5 Categoria.Computacion 10,
        Op.ordenar_compra 1 0 2]) 1 0
      { estado := Estado.Pendiente,
        publicacion := { id_publicacion := 0, nombre := "w", descripcion := "d",
                         precio := 5, categoria := Categoria.Computacion, stock := 8,
                         vendedor_id := 1 },
        comprador_id := 1, peticion_cancelacion := false, cantidad := 2 }
      (by decide) rfl rfl).2 (by decide)
     [Op.cancelar_orden 1 0, Op.cancelar_orden 1 0, Op.marcar_enviado 1 0] (by decide)⟩

/-- Helper for C2: when the catalog length reaches a multiple of 2^32, the
truncated index computation in `_publicar` fails AFTER the publication has
already been pushed, so the error return carries a changed state. -/
theorem publicar_underflow (m : Marketplace) (c : AccountId) (n d : String)
    (pr : Nat) (cat : Categoria) (st : Nat) (u : Usuario)
    (hu : Mapping.get m.usuarios c = some u)
    (hv : Usuario.es_vendedor u = Except.ok true)
    (hlen : (m.publicaciones.length + 1) % u32Mod = 0) :
    (_publicar m c n d pr cat st).1 = Except.error ErrorSistema.UnderflowPublicaciones ∧
    (_publicar m c n d pr cat st).2.publicaciones.length = m.publicaciones.length + 1 := by
  unfold _publicar _get_usuario
  rw [hu]
  simp [hv, checked_sub, List.length_append, hlen]

/-- C2: the claim fails on the code.  In the state `MBIG` — 2^32 − 1
publications and a registered seller — `_publicar` returns
`Err(UnderflowPublicaciones)`: the publication is pushed BEFORE the
`(len as u32).checked_sub(1)` index computation, which truncates 2^32 to 0 and
fails, yet the returned state differs from the input state (the catalog has
grown to 2^32 entries).  A failed operation can therefore leave a partial
write, contradicting the spec's every-validation-before-any-mutation
atomicity guarantee. -/
theorem publicar_partial_write :
    (_publicar MBIG 1 "n" "d" 0 Categoria.Computacion 5).1 =
      Except.error ErrorSistema.UnderflowPublicaciones ∧
    (_publicar MBIG 1 "n" "d" 0 Categoria.Computacion 5).2.publicaciones.length = u32Mod ∧
    (_publicar MBIG 1 "n" "d" 0 Categoria.Computacion 5).2 ≠ MBIG := by
  have hone : 1 ≤ u32Mod := by unfold u32Mod; omega
  have hpubs : MBIG.publicaciones = List.replicate (u32Mod - 1) PUBX := rfl
  have hlen : MBIG.publicaciones.length = u32Mod - 1 := by
    rw [hpubs]
    exact List.length_replicate _ _
  have hmod : (MBIG.publicaciones.length + 1) % u32Mod = 0 := by
    rw [hlen, Nat.sub_add_cancel hone, Nat.mod_self]
  have hu : Mapping.get MBIG.usuarios 1 =
      some { username := "s", rol := Rol.Vendedor, account_id := 1 } := by
    rw [show MBIG.usuarios =
      [(1, { username := "s", rol := Rol.Vendedor, account_id := 1 })] from rfl]
    simp [Mapping.get]
  obtain ⟨h1, h2⟩ := publicar_underflow MBIG 1 "n" "d" 0 Categoria.Computacion 5
    { username := "s", rol := Rol.Vendedor, account_id := 1 } hu rfl hmod
  refine ⟨h1, ?_, ?_⟩
  · rw [h2, hlen, Nat.sub_add_cancel hone]
  · intro heq
    have hcon := congrArg (fun s : Marketplace => s.publicaciones.length) heq
    simp only [h2, hlen] at hcon
    omega

theorem c10_step (k : Nat) (hk : k + 2 < u32Mod) (m : Marketplace) (h : c10_Q k m) :
    c10_Q (k + 1) (step m (Op.ordenar_compra 3 0 1)) := by
  obtain ⟨hu, hpubs, hlen, h0, hmap⟩ := h
  have hst : 1 ≤ u32Mod + 1 - k := by omega
  have hmod : (k + 1 + 1) % u32Mod = k + 2 := Nat.mod_eq_of_lt hk
  have main : step m (Op.ordenar_compra 3 0 1) =
      { m with publicaciones := [c10_pub (k + 1)],
               ordenes_compra := m.ordenes_compra ++
                 [{ estado := Estado.Pendiente, publicacion := c10_pub (k + 1),
                    comprador_id := 3, peticion_cancelacion := false, cantidad := 1 }],
               ordenes_compra_mapping := Mapping.insert m.ordenes_compra_mapping 3
                 (List.range' 1 (k + 1)) } := by
    simp only [step]
    unfold _ordenar_compra _get_usuario
    rw [hu, hpubs]
    simp only [Usuario.es_comprador, List.get?, checked_sub, c10_pub, List.set,
      List.length_append, hlen, List.length_cons, List.length_nil]
    rw [if_pos hst, hmod]
    rw [if_pos (by omega : 1 ≤ k + 2)]
    simp only [Marketplace.mk.injEq]
    refine ⟨trivial, ?_, ?_, trivial, ?_⟩
    · rw [show u32Mod + 1 - k - 1 = u32Mod + 1 - (k + 1) by omega]
    · rw [show u32Mod + 1 - k - 1 = u32Mod + 1 - (k + 1) by omega]
    · rw [hmap]
      rw [show k + 2 - 1 = 1 + k by omega]
      rw [List.range'_concat]
      simp
  rw [main]
  refine ⟨hu, rfl, ?_, ?_, ?_⟩
  · simp [hlen]
  · rw [List.get?_append (by omega)]
    exact h0
  · rw [Mapping.get_insert_self]
    rfl

theorem runFrom_concat (m : Marketplace) (l : List Op) (op : Op) :
    runFrom m (l ++ [op]) = step (runFrom m l) op := by
  simp [runFrom, List.foldl_append]

theorem c10_phase1 (k : Nat) : k + 2 ≤ u32Mod → ∀ m, c10_Q 0 m →
    c10_Q k (runFrom m (List.replicate k (Op.ordenar_compra 3 0 1))) := by
  induction k with
  | zero =>
    intro _ m h
    simpa [runFrom] using h
  | succ k2 ih =>
    intro hk m h
    rw [List.replicate_succ', runFrom_concat]
    exact c10_step k2 (by omega) _ (ih (by omega) m h)

theorem c10_step_fail (m : Marketplace) (h : c10_Q (u32Mod - 2) m) :
    Mapping.get (step m (Op.ordenar_compra 3 0 1)).usuarios 3 =
      some { username := "b", rol := Rol.Comprador, account_id := 3 } ∧
    (step m (Op.ordenar_compra 3 0 1)).publicaciones = [c10_pub (u32Mod - 1)] ∧
    (step m (Op.ordenar_compra 3 0 1)).ordenes_compra.length = u32Mod ∧
    (step m (Op.ordenar_compra 3 0 1)).ordenes_compra.get? 0 = some c10_ordB1 ∧
    (Mapping.get (step m (Op.ordenar_compra 3 0 1)).ordenes_compra_mapping 3).getD [] =
      List.range' 1 (u32Mod - 2) := by
  obtain ⟨hu, hpubs, hlen, h0, hmap⟩ := h
  have hbig : 2 ≤ u32Mod := by unfold u32Mod; omega
  have hst : 1 ≤ u32Mod + 1 - (u32Mod - 2) := by omega
  have hmod : (u32Mod - 2 + 1 + 1) % u32Mod = 0 := by
    rw [show u32Mod - 2 + 1 + 1 = u32Mod by omega, Nat.mod_self]
  have main : step m (Op.ordenar_compra 3 0 1) =
      { m with publicaciones := [c10_pub (u32Mod - 1)],
               ordenes_compra := m.ordenes_compra ++
                 [{ estado := Estado.Pendiente, publicacion := c10_pub (u32Mod - 1),
                    comprador_id := 3, peticion_cancelacion := false, cantidad := 1 }] } := by
    simp only [step]
    unfold _ordenar_compra _get_usuario
    rw [hu, hpubs]
    simp only [Usuario.es_comprador, List.get?, checked_sub, c10_pub, List.set,
      List.length_append, hlen, List.length_cons, List.length_nil]
    rw [if_pos hst, hmod]
    rw [if_neg (by omega : ¬ 1 ≤ 0)]
    simp only [Marketplace.mk.injEq]
    refine ⟨trivial, ?_, ?_, trivial, trivial⟩
    · rw [show u32Mod + 1 - (u32Mod - 2) - 1 = u32Mod + 1 - (u32Mod - 1) by omega]
    · rw [show u32Mod + 1 - (u32Mod - 2) - 1 = u32Mod + 1 - (u32Mod - 1) by omega]
  rw [main]
  refine ⟨hu, rfl, ?_, ?_, hmap⟩
  · simp [hlen]
    omega
  · rw [List.get?_append (by omega)]
    exact h0

theorem c10_step_wrap (m : Marketplace)
    (hu : Mapping.get m.usuarios 3 =
      some { username := "b", rol := Rol.Comprador, account_id := 3 })
    (hpubs : m.publicaciones = [c10_pub (u32Mod - 1)])
    (hlen : m.ordenes_compra.length = u32Mod)
    (h0 : m.ordenes_compra.get? 0 = some c10_ordB1)
    (hmap : (Mapping.get m.ordenes_compra_mapping 3).getD [] = List.range' 1 (u32Mod - 2)) :
    Mapping.get (step m (Op.ordenar_compra 3 0 1)).ordenes_compra_mapping 3 =
      some (List.range' 1 (u32Mod - 2) ++ [0]) ∧
    (step m (Op.ordenar_compra 3 0 1)).ordenes_compra.get? 0 = some c10_ordB1 := by
  have hbig : 2 ≤ u32Mod := by unfold u32Mod; omega
  have hst : 1 ≤ u32Mod + 1 - (u32Mod - 1) := by omega
  have hmod : (u32Mod + 1) % u32Mod = 1 := by
    rw [Nat.add_mod_left u32Mod 1]
    exact Nat.mod_eq_of_lt (by omega)
  have main : step m (Op.ordenar_compra 3 0 1) =
      { m with publicaciones := [{ c10_pub (u32Mod - 1) with
                 stock := u32Mod + 1 - (u32Mod - 1) - 1 }],
               ordenes_compra := m.ordenes_compra ++
                 [{ estado := Estado.Pendiente,
                    publicacion := { c10_pub (u32Mod - 1) with
                      stock := u32Mod + 1 - (u32Mod - 1) - 1 },
                    comprador_id := 3, peticion_cancelacion := false, cantidad := 1 }],
               ordenes_compra_mapping := Mapping.insert m.ordenes_compra_mapping 3
                 (List.range' 1 (u32Mod - 2) ++ [0]) } := by
    simp only [step]
    unfold _ordenar_compra _get_usuario
    rw [hu, hpubs]
    simp only [Usuario.es_comprador, List.get?, checked_sub, c10_pub, List.set,
      List.length_append, hlen, List.length_cons, List.length_nil]
    rw [if_pos hst, hmod]
    rw [if_pos (by omega : 1 ≤ 1)]
    simp only [Marketplace.mk.injEq]
    refine ⟨trivial, trivial, trivial, trivial, ?_⟩
    rw [hmap]
  rw [main]
  refine ⟨?_, ?_⟩
  · rw [Mapping.get_insert_self]
  · rw [List.get?_append (by omega)]
    exact h0

theorem run_append (l1 l2 : List Op) : run (l1 ++ l2) = runFrom (run l1) l2 := by
  unfold run runFrom
  rw [List.foldl_append]

/-- C10: the claim fails on the code.  Along the reachable trace `c10_ops` —
three registrations, one publication with stock 2^32 + 2, one unit order by
buyer 2, then 2^32 unit orders by buyer 3 — the buyer-index entry recorded for
buyer 3's last order is `(len as u32) − 1` where the truncated cast wraps:
position 0 is appended to buyer 3's index, but the order at position 0 belongs
to buyer 2.  The index-integrity invariant `IdxInv` is therefore violated in a
reachable state. -/
theorem buyer_index_wraparound : ¬ IdxInv (run c10_ops) := by
  intro hinv
  have hbase : c10_Q 0 (run c10_pre) := by
    unfold c10_Q
    decide
  have hrep2 : List.replicate u32Mod (Op.ordenar_compra 3 0 1) =
      List.replicate (u32Mod - 2) (Op.ordenar_compra 3 0 1) ++ [Op.ordenar_compra 3 0 1]
        ++ [Op.ordenar_compra 3 0 1] := by
    conv_lhs => rw [show u32Mod = u32Mod - 2 + 1 + 1 by unfold u32Mod; omega]
    rw [List.replicate_succ', List.replicate_succ']
  have hrun : run c10_ops =
      step (step (runFrom (run c10_pre)
        (List.replicate (u32Mod - 2) (Op.ordenar_compra 3 0 1)))
        (Op.ordenar_compra 3 0 1)) (Op.ordenar_compra 3 0 1) := by
    calc run c10_ops
        = runFrom (run c10_pre) (List.replicate u32Mod (Op.ordenar_compra 3 0 1)) := by
          unfold c10_ops
          exact run_append _ _
      _ = step (step (runFrom (run c10_pre)
            (List.replicate (u32Mod - 2) (Op.ordenar_compra 3 0 1)))
            (Op.ordenar_compra 3 0 1)) (Op.ordenar_compra 3 0 1) := by
          rw [hrep2, runFrom_concat, runFrom_concat]
  have h1 := c10_phase1 (u32Mod - 2) (by unfold u32Mod; omega) (run c10_pre) hbase
  obtain ⟨hu2, hp2, hl2, h02, hm2⟩ := c10_step_fail _ h1
  obtain ⟨hmapf, h0f⟩ := c10_step_wrap _ hu2 hp2 hl2 h02 hm2
  obtain ⟨hbuy, _⟩ := hinv
  obtain ⟨o, hoo, hob⟩ := hbuy 3 (List.range' 1 (u32Mod - 2) ++ [0])
    (by rw [hrun]; exact hmapf) 0 (List.mem_append_right _ (by simp))
  rw [hrun, h0f] at hoo
  cases hoo
  simp [c10_ordB1] at hob
